import Mathlib

/-!
Verification of the TypingGeneAuth bot-detection pipeline

Shallow embedding of the scoring pipeline of this repository:

* `TypingParser` — `typing-parser` module: pattern decoding, basic statistics,
  distribution analysis and trajectory analysis.
* `AutomationDetector` — `automation-detector.js`: the signal catalog
  (Gaussian-pattern, trajectory-automation, WebDriver, synthetic-event,
  field-typing, password-mismatch detectors) and the `analyze` fusion engine.
* `TypingAnalyzer` — the second, parallel analyzer shipped in the repository,
  with its own `parsePattern`, `analyzeFieldTyping` and `analyzeLogin`.

Conventions of the embedding:

* JavaScript numbers are modelled with `ℚ` (and `ℤ`/`ℕ` where the source only
  ever holds integers); the irrational intermediate quantities of the source
  (`Math.sqrt`, `Math.acos` and sums thereof) are modelled with `ℝ`.
* `Math.round(x)` is `⌊x + 1/2⌋` (JavaScript rounds half-up towards +∞).
* Absent (`undefined`) fields are `Option`/default-zero according to how the
  source distinguishes `undefined` from `0` (it matters only for
  `syntheticKeyEvents !== undefined` and the `||` fallback chains).
-/

/-- The `Math.round` on a rational: round half towards +∞. -/
def jsRound (q : ℚ) : ℤ := ⌊q + 1/2⌋

/-- The `⌊Real.sqrt q⌋` computed by integer arithmetic: for `q = a/b ≥ 0`,
`sqrt (a/b) = sqrt (a*b) / b`, so the floor is `Nat.sqrt (a*b) / b`. -/
def ratSqrtFloor (q : ℚ) : ℕ := Nat.sqrt (q.num.toNat * q.den) / q.den

/-- The `Math.round (Math.sqrt q)` for `q ≥ 0`, i.e. `⌊Real.sqrt q + 1/2⌋`,
computed by integer arithmetic via `⌊(⌊sqrt (4q)⌋ + 1) / 2⌋`. -/
def jsRoundSqrt (q : ℚ) : ℕ := (ratSqrtFloor (4 * q) + 1) / 2

/-- The `Math.round` on a real: round half towards +∞. -/
noncomputable def jsRoundR (x : ℝ) : ℤ := ⌊x + 1/2⌋

/-- JavaScript number-to-string for a rational with at most two decimal
places (the only values the source interpolates into reason strings after
its `Math.round(x * 100) / 100` roundings). -/
def fmt2 (q : ℚ) : String :=
  let sign := if q < 0 then "-" else ""
  let a : ℚ := |q|
  let ipart : ℕ := a.floor.toNat
  let cents : ℕ := ((a - a.floor) * 100).floor.toNat
  if cents = 0 then sign ++ toString ipart
  else if cents % 10 = 0 then sign ++ toString ipart ++ "." ++ toString (cents / 10)
  else sign ++ toString ipart ++ "." ++ (if cents < 10 then "0" else "") ++ toString cents

/-- Digit string to number, as the digit-consuming core of `parseInt`. -/
def digitsToNat (cs : List Char) : ℕ :=
  cs.foldl (fun a c => 10 * a + (c.toNat - 48)) 0

/-- The `parseInt(s) || 0` on the characters of `s`: skip leading whitespace,
optional sign, longest (decimal) digit prefix; no digits (`NaN`) collapses
to `0` via `|| 0`. -/
def jsParseInt (cs0 : List Char) : ℤ :=
  let cs := cs0.dropWhile fun c => c == ' ' || c == '\t' || c == '\n' || c == '\r'
  match cs with
  | '-' :: rest => -(digitsToNat (rest.takeWhile (·.isDigit)) : ℤ)
  | '+' :: rest => (digitsToNat (rest.takeWhile (·.isDigit)) : ℤ)
  | rest => (digitsToNat (rest.takeWhile (·.isDigit)) : ℤ)

/-- The `parseInt(parts[i]) || 0` with `parts[i]` possibly `undefined`. -/
def jsParseIntAt (parts : List (List Char)) (i : ℕ) : ℤ :=
  match parts[i]? with
  | some cs => jsParseInt cs
  | none => 0

/-- The `String.prototype.split` with a single-character separator, on the
character list of the string: `"".split(sep)` is `[""]`, separators at the
ends produce empty segments, exactly as in JavaScript. -/
def splitOnChar (sep : Char) : List Char → List (List Char)
  | [] => [[]]
  | c :: cs =>
    if c = sep then [] :: splitOnChar sep cs
    else
      match splitOnChar sep cs with
      | [] => [[c]]
      | h :: t => (c :: h) :: t

/-- The `Math.min(...arr)` for a nonempty integer array (0 for the empty one,
which the source never queries). -/
def listMin : List ℤ → ℤ
  | [] => 0
  | x :: xs => xs.foldl Min.min x

/-- The `Math.max(...arr)` for a nonempty integer array. -/
def listMax : List ℤ → ℤ
  | [] => 0
  | x :: xs => xs.foldl Max.max x

/-- The `Math.min(...values)` for a nonempty rational array. -/
def listMinQ : List ℚ → ℚ
  | [] => 0
  | x :: xs => xs.foldl Min.min x

/-- The `Math.max(...values)` for a nonempty rational array. -/
def listMaxQ : List ℚ → ℚ
  | [] => 0
  | x :: xs => xs.foldl Max.max x

/-- Adjacent pairs `(l[i-1], l[i])` for `i = 1 .. l.length - 1`. -/
def pairsOf (l : List α) : List (α × α) := l.zip l.tail

/-- Adjacent triples `(l[i-2], l[i-1], l[i])` for `i = 2 .. l.length - 1`. -/
def triplesOf (l : List α) : List (α × α × α) := l.zip (l.tail.zip l.tail.tail)

/-- One decoded keystroke sample: `{seekTime, pressTime}`. -/
structure Keystroke where
  seekTime : ℤ
  pressTime : ℤ
deriving DecidableEq, Repr

/-- The `raw` field of a decoded pattern: the positive-filtered intervals. -/
structure RawTimes where
  seekTimes : List ℤ
  pressTimes : List ℤ
deriving DecidableEq, Repr

/-- Summary statistics of `TypingParser.calcStats`. -/
structure StatsSummary where
  avg : ℤ
  min : ℤ
  max : ℤ
  std : ℤ
  range : ℤ
deriving DecidableEq, Repr

/-- Decoded result of `TypingParser.parsePattern` for one field. -/
structure FieldPattern where
  keystrokeCount : ℕ
  seekTime : StatsSummary
  pressTime : StatsSummary
  longPauses : ℕ
  keystrokes : List Keystroke
  raw : RawTimes
deriving DecidableEq, Repr

/-- Population mean `Σ/n` of an integer array, as a rational. -/
def zMean (arr : List ℤ) : ℚ := ((arr.map fun t => (t : ℚ)).sum) / arr.length

/-- Population variance `Σ(t - mean)²/n` of an integer array. -/
def zVariance (arr : List ℤ) : ℚ :=
  ((arr.map fun t => ((t : ℚ) - zMean arr) ^ 2).sum) / arr.length

/-- The `TypingParser.calcStats`: `{avg: 0, min: 0, max: 0, std: 0, range: 0}` for
an empty array, otherwise rounded mean, min/max/range, and the rounded
population standard deviation (`0` when the array has a single element;
the population formula also gives `0` there). -/
def TypingParser.calcStats (arr : List ℤ) : StatsSummary :=
  match arr with
  | [] => ⟨0, 0, 0, 0, 0⟩
  | x :: xs =>
    let l := x :: xs
    let mn := listMin l
    let mx := listMax l
    let std : ℕ := if 1 < l.length then jsRoundSqrt (zVariance l) else 0
    ⟨jsRound (zMean l), mn, mx, (std : ℤ), mx - mn⟩

/-- The `TypingParser.parsePattern`: `null` for an empty string or fewer than two
`|`-segments; otherwise drops the header segment, parses each remaining
segment as `seekTime,pressTime`, filters the positive intervals and computes
their summary statistics and the long-pause count. -/
def TypingParser.parsePattern (patternStr : String) : Option FieldPattern :=
  if patternStr = "" then none
  else
    let segments := splitOnChar '|' patternStr.data
    if segments.length < 2 then none
    else
      let keystrokes : List Keystroke := (segments.drop 1).map fun seg =>
        let parts := splitOnChar ',' seg
        ⟨jsParseIntAt parts 0, jsParseIntAt parts 1⟩
      let seekTimes := (keystrokes.map Keystroke.seekTime).filter fun t => decide (0 < t)
      let pressTimes := (keystrokes.map Keystroke.pressTime).filter fun t => decide (0 < t)
      let seekStats := TypingParser.calcStats seekTimes
      let pressStats := TypingParser.calcStats pressTimes
      let longPauses := (seekTimes.filter fun t => decide (500 < t)).length
      some ⟨keystrokes.length, seekStats, pressStats, longPauses, keystrokes,
        ⟨seekTimes, pressTimes⟩⟩

/-- Result of `TypingParser.analyzeDistribution`: `{valid:false}`,
`{valid:true, isUniform:true}` (which carries no higher moments), or the full
summary. -/
inductive DistResult where
  | invalid : DistResult
  | uniform : DistResult
  | full (mean : ℤ) (std : ℤ) (skewness kurtosis roundNumberRatio : ℚ)
      (maxConsecutiveSimilar : ℕ) (range : ℚ) (cv : ℚ) : DistResult
deriving DecidableEq, Repr

/-- The `valid` field of a distribution result. -/
def DistResult.valid : DistResult → Bool
  | .invalid => false
  | _ => true

/-- Population mean of a rational array. -/
def meanOf (values : List ℚ) : ℚ := values.sum / values.length

/-- Population variance of a rational array. -/
def varianceOf (values : List ℚ) : ℚ :=
  ((values.map fun v => (v - meanOf values) ^ 2).sum) / values.length

/-- The `maxConsecutiveSimilar` scan: longest run of adjacent values whose
absolute difference stays below 10, starting from 1. -/
def consecRun (values : List ℚ) : ℕ :=
  ((pairsOf values).foldl
    (fun st pq =>
      if |pq.2 - pq.1| < 10 then (Nat.max st.1 (st.2 + 1), st.2 + 1) else (st.1, 1))
    (1, 1)).1

/-- The `TypingParser.analyzeDistribution`. Fewer than 4 values → `invalid`.
The source computes `std = Math.sqrt(variance)` and tests `std === 0`, which
holds exactly when `variance = 0` → `uniform`. Otherwise skewness, excess
kurtosis and CV are computed with the real square root and rounded to two
decimals (`v % 10 === 0` on a rational holds exactly when it is an integer
multiple of 10). -/
noncomputable def TypingParser.analyzeDistribution (values : List ℚ) : DistResult :=
  if values.length < 4 then .invalid
  else
    let n : ℚ := values.length
    let mean := meanOf values
    let variance := varianceOf values
    if variance = 0 then .uniform
    else
      let std : ℝ := Real.sqrt (variance : ℝ)
      let skewness : ℝ :=
        ((values.map fun v => (((v : ℝ) - (mean : ℝ)) / std) ^ 3).sum) / (n : ℝ)
      let kurtosis : ℝ :=
        ((values.map fun v => (((v : ℝ) - (mean : ℝ)) / std) ^ 4).sum) / (n : ℝ) - 3
      let roundNumbers :=
        (values.filter fun v => decide (v.den = 1 ∧ (10 : ℤ) ∣ v.num)).length
      let roundNumberRatio : ℚ := (roundNumbers : ℚ) / n
      let cv : ℝ := if 0 < (mean : ℝ) then std / (mean : ℝ) else 0
      .full (jsRound mean) (jsRoundR std)
        ((jsRoundR (skewness * 100) : ℚ) / 100)
        ((jsRoundR (kurtosis * 100) : ℚ) / 100)
        ((jsRound (roundNumberRatio * 100) : ℚ) / 100)
        (consecRun values)
        (listMaxQ values - listMinQ values)
        ((jsRoundR (cv * 100) : ℚ) / 100)

/-- A trajectory sample point `{x, y, t?}`. -/
structure Point where
  x : ℚ
  y : ℚ
  t : Option ℚ
deriving DecidableEq, Repr

/-- The trajectory input `{sample, captured}`. -/
structure Trajectory where
  sample : List Point
  captured : Bool
deriving DecidableEq, Repr

/-- Result of `TypingParser.analyzeTrajectory`; an invalid trajectory is
`{valid:false, points:0, distance:0}` (the remaining fields are never read
on the invalid result in the source and are zero/none here). -/
structure TrajResult where
  valid : Bool
  points : ℕ
  distance : ℤ
  smoothRatio : ℚ
  correctionRatio : ℚ
  intervalStats : Option DistResult
deriving DecidableEq, Repr

/-- Squared magnitude of the displacement from `a` to `b`; the source's
`mag > 0` check on `Math.sqrt` of this quantity is equivalent to `0 <` it. -/
def magSq (a b : Point) : ℚ := (b.x - a.x) ^ 2 + (b.y - a.y) ^ 2

/-- The turn angle at interior point `b`:
`Math.acos(Math.max(-1, Math.min(1, dot / (mag1 * mag2))))`. -/
noncomputable def turnAngle (a b c : Point) : ℝ :=
  let v1x : ℚ := b.x - a.x
  let v1y : ℚ := b.y - a.y
  let v2x : ℚ := c.x - b.x
  let v2y : ℚ := c.y - b.y
  let mag1 : ℝ := Real.sqrt ((v1x ^ 2 + v1y ^ 2 : ℚ) : ℝ)
  let mag2 : ℝ := Real.sqrt ((v2x ^ 2 + v2y ^ 2 : ℚ) : ℝ)
  let dot : ℝ := ((v1x * v2x + v1y * v2y : ℚ) : ℝ)
  Real.arccos (max (-1) (min 1 (dot / (mag1 * mag2))))

open Classical in
/-- Does interior point `b` count into `smoothSegments`? Both displacement
vectors nonzero and the turn angle below 0.1 rad. -/
noncomputable def stepSmooth (a b c : Point) : Bool :=
  decide (0 < magSq a b ∧ 0 < magSq b c ∧ turnAngle a b c < 0.1)

open Classical in
/-- Does interior point `b` count into `corrections`? Both displacement
vectors nonzero and the turn angle strictly between 0.09 and 0.52 rad.
The band deliberately overlaps the smooth band on (0.09, 0.1). -/
noncomputable def stepCorrection (a b c : Point) : Bool :=
  decide (0 < magSq a b ∧ 0 < magSq b c ∧
    0.09 < turnAngle a b c ∧ turnAngle a b c < 0.52)

/-- Is `points[0].t` truthy (present and nonzero)? -/
def headTimeTruthy (points : List Point) : Bool :=
  match points with
  | [] => false
  | p :: _ => p.t.getD 0 != 0

/-- The `TypingParser.analyzeTrajectory`: fewer than 3 sample points → invalid;
otherwise total rounded Euclidean path length, the smooth/correction counts
over interior points and their two-decimal ratios, and — when there are more
than 3 points and the first carries a (truthy) timestamp — the distribution
summary of the consecutive time deltas. -/
noncomputable def TypingParser.analyzeTrajectory (trajectory : Trajectory) : TrajResult :=
  if trajectory.sample.length < 3 then ⟨false, 0, 0, 0, 0, none⟩
  else
    let points := trajectory.sample
    let totalDistance : ℝ :=
      ((pairsOf points).map fun pq =>
        Real.sqrt (((pq.2.x - pq.1.x) ^ 2 + (pq.2.y - pq.1.y) ^ 2 : ℚ) : ℝ)).sum
    let smoothSegments :=
      ((triplesOf points).filter fun tr => stepSmooth tr.1 tr.2.1 tr.2.2).length
    let corrections :=
      ((triplesOf points).filter fun tr => stepCorrection tr.1 tr.2.1 tr.2.2).length
    let smoothRatio : ℚ :=
      if 2 < points.length then (smoothSegments : ℚ) / ((points.length : ℚ) - 2) else 0
    let correctionRatio : ℚ :=
      if 2 < points.length then (corrections : ℚ) / ((points.length : ℚ) - 2) else 0
    let intervalStats : Option DistResult :=
      if 3 < points.length ∧ headTimeTruthy points then
        some (TypingParser.analyzeDistribution
          ((pairsOf points).map fun pq => pq.2.t.getD 0 - pq.1.t.getD 0))
      else none
    ⟨true, points.length, jsRoundR totalDistance,
      (jsRound (smoothRatio * 100) : ℚ) / 100,
      (jsRound (correctionRatio * 100) : ℚ) / 100,
      intervalStats⟩

/-- The `seekTime` threshold group. -/
structure SeekTimeThresholds where
  botMax : ℤ
  humanMin : ℤ
  tooFast : ℤ
  uniformStdMax : ℤ

/-- The `pressTime` threshold group. -/
structure PressTimeThresholds where
  botMax : ℤ
  humanMin : ℤ
  uniformStdMax : ℤ

/-- The `trajectory` threshold group. -/
structure TrajectoryThresholds where
  minPoints : ℕ
  minDistance : ℤ

/-- The `timing` threshold group. -/
structure TimingThresholds where
  userToPassMin : ℤ
  passToLoginMin : ℤ

/-- The `antiBot` threshold group. -/
structure AntiBotThresholds where
  seekTimeMinRange : ℤ
  pressTimeMinRange : ℤ
  skewnessThreshold : ℚ
  kurtosisMin : ℚ
  kurtosisMax : ℚ
  roundNumberRatio : ℚ
  consecutiveSimilarMax : ℕ
  trajectorySmoothMax : ℚ
  trajectoryCorrectionMin : ℚ
  trajectoryIntervalCVMax : ℚ
  cvMin : ℚ
  cvMax : ℚ

/-- The `decision` threshold group. -/
structure DecisionThresholds where
  botProbabilityThreshold : ℕ

/-- The full `AutomationDetector.thresholds` table shape. -/
structure Thresholds where
  seekTime : SeekTimeThresholds
  pressTime : PressTimeThresholds
  trajectory : TrajectoryThresholds
  timing : TimingThresholds
  antiBot : AntiBotThresholds
  decision : DecisionThresholds

/-- The static `AutomationDetector.thresholds` configuration. -/
def AutomationDetector.thresholds : Thresholds :=
  { seekTime := { botMax := 50, humanMin := 80, tooFast := 30, uniformStdMax := 20 }
    pressTime := { botMax := 20, humanMin := 40, uniformStdMax := 10 }
    trajectory := { minPoints := 3, minDistance := 50 }
    timing := { userToPassMin := 300, passToLoginMin := 100 }
    antiBot :=
      { seekTimeMinRange := 100
        pressTimeMinRange := 30
        skewnessThreshold := 3/10
        kurtosisMin := -1
        kurtosisMax := 3
        roundNumberRatio := 3/10
        consecutiveSimilarMax := 3
        trajectorySmoothMax := 8/10
        trajectoryCorrectionMin := 1/10
        trajectoryIntervalCVMax := 3/10
        cvMin := 15/100
        cvMax := 35/100 }
    decision := { botProbabilityThreshold := 70 } }

/-- A weighted flag `{weight, reason}`; all flags emitted by the
`AutomationDetector` catalog detectors are bot-tagged (`type: "bot"`) except
the field-typing human flags, which the source keeps in a separate
`humanFlags` list. -/
structure SignalFlag where
  weight : ℕ
  reason : String
deriving DecidableEq, Repr

/-- Sum of the weights of a flag list. -/
def weightSum (flags : List SignalFlag) : ℕ := (flags.map SignalFlag.weight).sum

/-- The `AutomationDetector.detectGaussianPattern`. On a `uniform` distribution
the source compares the absent (`undefined`) skewness/kurtosis/cv fields,
so every condition is false and no flag fires. -/
def AutomationDetector.detectGaussianPattern (distribution : DistResult) : List SignalFlag :=
  match distribution with
  | .invalid => []
  | .uniform => []
  | .full _mean _std skewness kurtosis roundNumberRatio maxConsecutiveSimilar _range cv =>
    let th := AutomationDetector.thresholds.antiBot
    (if |skewness| < th.skewnessThreshold ∧ th.kurtosisMin < kurtosis ∧
        kurtosis < th.kurtosisMax then
      [⟨2, "Distribution too close to Gaussian (skew=" ++ fmt2 skewness ++
        ", kurtosis=" ++ fmt2 kurtosis ++ ")"⟩]
    else [])
    ++ (if th.roundNumberRatio < roundNumberRatio then
      [⟨2, "Too many round numbers (" ++ toString (jsRound (roundNumberRatio * 100)) ++
        "% are multiples of 10ms)"⟩]
    else [])
    ++ (if th.consecutiveSimilarMax < maxConsecutiveSimilar then
      [⟨2, toString maxConsecutiveSimilar ++ " consecutive similar intervals detected"⟩]
    else [])
    ++ (if th.cvMin < cv ∧ cv < th.cvMax then
      [⟨2, "Coefficient of variation suggests programmatic randomness (CV=" ++
        fmt2 cv ++ ")"⟩]
    else [])

/-- The `AutomationDetector.detectTrajectoryAutomation`. The interval-CV check
reads `intervalStats.cv`, which exists only on a `full` distribution result
(on `uniform` the `undefined` comparison is false). -/
def AutomationDetector.detectTrajectoryAutomation (t : TrajResult) : List SignalFlag :=
  if t.valid = false then []
  else
    let th := AutomationDetector.thresholds.antiBot
    (if th.trajectorySmoothMax < t.smoothRatio then
      [⟨3, "Mouse trajectory too smooth (" ++ toString (jsRound (t.smoothRatio * 100)) ++
        "%), likely Bezier curve"⟩]
    else [])
    ++ (if t.correctionRatio < th.trajectoryCorrectionMin ∧ 10 < t.points then
      [⟨2, "No micro-corrections in mouse movement (" ++
        toString (jsRound (t.correctionRatio * 100)) ++ "%)"⟩]
    else [])
    ++ (match t.intervalStats with
      | some (.full _ _ _ _ _ _ _ cv) =>
        if cv < th.trajectoryIntervalCVMax then
          [⟨2, "Mouse movement timing too uniform (CV=" ++ fmt2 cv ++ ")"⟩]
        else []
      | _ => [])

/-- The `automationFlags` environment booleans. -/
structure AutomationFlags where
  hasChromiumAutomation : Bool := false
  hasSelenium : Bool := false
  hasPhantom : Bool := false
  headlessChrome : Bool := false
  noPlugins : Bool := false
  zeroWindowSize : Bool := false
deriving DecidableEq, Repr

/-- The `typingdna` request field. -/
structure Typingdna where
  lastUserTp : Option String := none
  lastPassTp : Option String := none
deriving DecidableEq, Repr

/-- The request `stats` object consumed by `AutomationDetector.analyze`.
Numeric fields the source only tests with `> 0` or `|| 0` are plain `ℕ`
(absent behaves as 0); fields where the source distinguishes `undefined`
(`!= null`, `!== undefined`, trajectory presence) are `Option`. -/
structure Stats where
  typingdna : Option Typingdna := none
  usernameToPasswordMs : Option ℤ := none
  passwordToLoginMs : Option ℤ := none
  trajectory : Option Trajectory := none
  pasteUser : ℕ := 0
  pastePass : ℕ := 0
  imeUser : ℕ := 0
  imePass : ℕ := 0
  shiftCount : ℕ := 0
  capsLockCount : ℕ := 0
  passwordShiftCount : ℕ := 0
  passwordCapsLockCount : ℕ := 0
  password : String := ""
  webdriverDetected : Bool := false
  automationFlags : Option AutomationFlags := none
  untrustedEvents : ℕ := 0
  syntheticKeyEvents : Option ℕ := none
  totalKeyEvents : ℕ := 0

/-- The `AutomationDetector.detectWebDriver`, in source emission order. -/
def AutomationDetector.detectWebDriver (stats : Stats) : List SignalFlag :=
  (if stats.webdriverDetected then
    [⟨5, "WebDriver automation detected (navigator.webdriver)"⟩]
  else [])
  ++ (match stats.automationFlags with
    | none => []
    | some af =>
      (if af.hasChromiumAutomation then [⟨3, "Chromium automation flags detected"⟩] else [])
      ++ (if af.hasSelenium then [⟨5, "Selenium WebDriver detected"⟩] else [])
      ++ (if af.hasPhantom then [⟨5, "PhantomJS detected"⟩] else [])
      ++ (if af.headlessChrome then [⟨4, "HeadlessChrome detected"⟩] else [])
      ++ (if af.noPlugins then [⟨0, "No browser plugins (possible headless)"⟩] else [])
      ++ (if af.zeroWindowSize then [⟨3, "Zero window size (headless browser)"⟩] else []))

/-- The `AutomationDetector.detectSyntheticEvents`: untrusted events, and the
synthetic keyboard ratio when `syntheticKeyEvents !== undefined` and
`totalKeyEvents > 0`. -/
def AutomationDetector.detectSyntheticEvents (stats : Stats) : List SignalFlag :=
  (if 0 < stats.untrustedEvents then
    [⟨3, "Detected " ++ toString stats.untrustedEvents ++ " untrusted (synthetic) events"⟩]
  else [])
  ++ (match stats.syntheticKeyEvents with
    | none => []
    | some k =>
      if 0 < stats.totalKeyEvents then
        if (3 : ℚ)/10 < (k : ℚ) / (stats.totalKeyEvents : ℚ) then
          [⟨4, "High ratio of synthetic keyboard events (" ++
            toString (jsRound ((k : ℚ) / (stats.totalKeyEvents : ℚ) * 100)) ++ "%)"⟩]
        else []
      else [])

/-- Result of `AutomationDetector.analyzeFieldTyping`. -/
structure FieldAnalysis where
  valid : Bool
  botFlags : List SignalFlag
  humanFlags : List SignalFlag
deriving DecidableEq, Repr

/-- The `AutomationDetector.analyzeFieldTyping`, flags in source emission order. -/
def AutomationDetector.analyzeFieldTyping (pattern : Option FieldPattern) : FieldAnalysis :=
  match pattern with
  | none => ⟨false, [], []⟩
  | some p =>
    if p.keystrokeCount = 0 then ⟨false, [], []⟩
    else
      let th := AutomationDetector.thresholds
      let botFlags : List SignalFlag :=
        (if p.seekTime.avg < th.seekTime.tooFast then
          [⟨3, "Extremely short key interval (" ++ toString p.seekTime.avg ++ "ms < " ++
            toString th.seekTime.tooFast ++ "ms)"⟩]
        else if p.seekTime.avg < th.seekTime.botMax then
          [⟨2, "Key interval too short (" ++ toString p.seekTime.avg ++ "ms < " ++
            toString th.seekTime.botMax ++ "ms)"⟩]
        else [])
        ++ (if p.seekTime.std < th.seekTime.uniformStdMax ∧ 3 < p.keystrokeCount then
          [⟨2, "Key interval too uniform (std=" ++ toString p.seekTime.std ++ "ms)"⟩]
        else [])
        ++ (if 0 < p.pressTime.avg ∧ p.pressTime.avg < th.pressTime.botMax then
          [⟨2, "Extremely short key press (" ++ toString p.pressTime.avg ++ "ms < " ++
            toString th.pressTime.botMax ++ "ms)"⟩]
        else [])
        ++ (if p.pressTime.std < th.pressTime.uniformStdMax ∧ 3 < p.keystrokeCount ∧
              0 < p.pressTime.avg then
          [⟨2, "Key press too uniform (std=" ++ toString p.pressTime.std ++ "ms)"⟩]
        else [])
        ++ (if p.seekTime.range < th.antiBot.seekTimeMinRange ∧ 5 < p.keystrokeCount then
          [⟨2, "SeekTime range too narrow (" ++ toString p.seekTime.range ++ "ms < " ++
            toString th.antiBot.seekTimeMinRange ++ "ms)"⟩]
        else [])
      let humanFlags : List SignalFlag :=
        (if th.seekTime.humanMin < p.seekTime.avg then
          [⟨1, "Normal key interval (" ++ toString p.seekTime.avg ++ "ms)"⟩]
        else [])
        ++ (if th.pressTime.humanMin < p.pressTime.avg then
          [⟨1, "Normal key press (" ++ toString p.pressTime.avg ++ "ms)"⟩]
        else [])
        ++ (if 0 < p.longPauses then
          [⟨2, "Has long pauses (" ++ toString p.longPauses ++ "x > 500ms)"⟩]
        else [])
      ⟨true, botFlags, humanFlags⟩

/-- The special-character class of the password regex
`[!@#$%^&*()_+\-=\[\]{};':"\\|,.<>\/?`+"`"+`~]`. -/
def specialChars : String :=
  "!@#$%^&*()_+-=[]\x7b\x7d;\x27:\"\\|,.<>/?\x60~"

/-- The `details` record of `detectPasswordMismatch`. -/
structure PasswordDetails where
  hasUpperCase : Bool
  hasSpecialChar : Bool
  needsShift : Bool
  usedShiftOrCaps : Bool
  usedPaste : Bool
deriving DecidableEq, Repr

/-- The `AutomationDetector.detectPasswordMismatch`: empty password → no flags
and `null` details; otherwise the shift/caps counts fall back through the
`passwordShiftCount || shiftCount || 0` chains (`0` is falsy). -/
def AutomationDetector.detectPasswordMismatch (stats : Stats) :
    List SignalFlag × Option PasswordDetails :=
  let password := stats.password
  let shiftCount :=
    if stats.passwordShiftCount ≠ 0 then stats.passwordShiftCount else stats.shiftCount
  let capsLockCount :=
    if stats.passwordCapsLockCount ≠ 0 then stats.passwordCapsLockCount
    else stats.capsLockCount
  let pastePass := stats.pastePass
  if password = "" then ([], none)
  else
    let hasUpperCase := password.data.any fun c => decide ('A' ≤ c ∧ c ≤ 'Z')
    let hasSpecialChar := password.data.any fun c => specialChars.data.contains c
    let needsShift := hasUpperCase || hasSpecialChar
    let usedShiftOrCaps := decide (0 < shiftCount) || decide (0 < capsLockCount)
    let usedPaste := decide (0 < pastePass)
    ((if needsShift && !usedShiftOrCaps && !usedPaste then
        [⟨3, "Password has uppercase/special chars but no Shift/CapsLock and not pasted"⟩]
      else []),
     some ⟨hasUpperCase, hasSpecialChar, needsShift, usedShiftOrCaps, usedPaste⟩)

/-- The `stats.typingdna?.lastUserTp` fed to `parsePattern`. -/
def AutomationDetector.userPatternOf (stats : Stats) : Option FieldPattern :=
  (stats.typingdna.bind Typingdna.lastUserTp).bind TypingParser.parsePattern

/-- The `stats.typingdna?.lastPassTp` fed to `parsePattern`. -/
def AutomationDetector.passPatternOf (stats : Stats) : Option FieldPattern :=
  (stats.typingdna.bind Typingdna.lastPassTp).bind TypingParser.parsePattern

/-- Accumulated contribution of one typing field in `analyze` (step 2):
bot/human weight sums, pushed reasons, and the `details` entries. -/
structure FieldStep where
  bot : ℕ
  human : ℕ
  reasons : List String
  analysis : Option FieldAnalysis
  dist : Option DistResult

/-- Step 2 of `analyze` for one field: field-typing flags (bot reasons with
the `[<label>] ` prefix, human flags scored without reasons), then — only when
the field has strictly more than 4 positive seek intervals — the seek-interval
distribution and the Gaussian-pattern flags with the `[<label> SeekTime] `
prefix. -/
noncomputable def AutomationDetector.fieldStep (label : String)
    (pat : Option FieldPattern) : FieldStep :=
  match pat with
  | none => ⟨0, 0, [], none, none⟩
  | some p =>
    let a := AutomationDetector.analyzeFieldTyping (some p)
    let base : FieldStep :=
      ⟨weightSum a.botFlags, weightSum a.humanFlags,
        a.botFlags.map (fun f => "[" ++ label ++ "] " ++ f.reason), some a, none⟩
    if 4 < p.raw.seekTimes.length then
      let dist := TypingParser.analyzeDistribution (p.raw.seekTimes.map fun t => (t : ℚ))
      let gaussFlags := AutomationDetector.detectGaussianPattern dist
      ⟨base.bot + weightSum gaussFlags, base.human,
        base.reasons ++ gaussFlags.map (fun f => "[" ++ label ++ " SeekTime] " ++ f.reason),
        base.analysis, some dist⟩
    else base

/-- Step 3 of `analyze`: the two inter-field timing checks. -/
def AutomationDetector.timingStep (stats : Stats) : ℕ × List String :=
  let th := AutomationDetector.thresholds
  let u : ℕ × List String :=
    match stats.usernameToPasswordMs with
    | some ms =>
      if ms < th.timing.userToPassMin then
        (2, ["Username to password too fast (" ++ toString ms ++ "ms < " ++
          toString th.timing.userToPassMin ++ "ms)"])
      else (0, [])
    | none => (0, [])
  let p : ℕ × List String :=
    match stats.passwordToLoginMs with
    | some ms =>
      if ms < th.timing.passToLoginMin then
        (2, ["Password to login too fast (" ++ toString ms ++ "ms < " ++
          toString th.timing.passToLoginMin ++ "ms)"])
      else (0, [])
    | none => (0, [])
  (u.1 + p.1, u.2 ++ p.2)

/-- Accumulated contribution of step 4 of `analyze` (trajectory). -/
structure TrajStep where
  bot : ℕ
  human : ℕ
  reasons : List String
  analysis : Option TrajResult

/-- Step 4 of `analyze`: runs `analyzeTrajectory` when a trajectory is
present; on a valid result fires the basic checks (the `points <  minPoints`
branch is preserved although a valid result always has at least 3 points),
the human sufficiency bonus, and the trajectory-automation flags with the
`[Trajectory] ` prefix. An invalid result contributes nothing but is still
recorded in the details. -/
noncomputable def AutomationDetector.trajectoryStep (stats : Stats) : TrajStep :=
  match stats.trajectory with
  | none => ⟨0, 0, [], none⟩
  | some traj =>
    let ta := TypingParser.analyzeTrajectory traj
    if ta.valid then
      let th := AutomationDetector.thresholds
      let b1 : ℕ × List String :=
        if ta.points < th.trajectory.minPoints then
          (1, ["Too few trajectory points (" ++ toString ta.points ++ " < " ++
            toString th.trajectory.minPoints ++ ")"])
        else (0, [])
      let b2 : ℕ × List String :=
        if ta.distance < th.trajectory.minDistance ∧ traj.captured then
          (1, ["Mouse distance too short (" ++ toString ta.distance ++ "px < " ++
            toString th.trajectory.minDistance ++ "px)"])
        else (0, [])
      let hum : ℕ := if 5 < ta.points ∧ 100 < ta.distance then 2 else 0
      let trajFlags := AutomationDetector.detectTrajectoryAutomation ta
      ⟨b1.1 + b2.1 + weightSum trajFlags, hum,
        b1.2 ++ b2.2 ++ trajFlags.map (fun f => "[Trajectory] " ++ f.reason), some ta⟩
    else ⟨0, 0, [], some ta⟩

/-- Step 5 of `analyze`: paste detection. -/
def AutomationDetector.pasteStep (stats : Stats) : ℕ × List String :=
  let u : ℕ × List String :=
    if 0 < stats.pasteUser then (1, ["Username was pasted"]) else (0, [])
  let p : ℕ × List String :=
    if 0 < stats.pastePass then (1, ["Password was pasted"]) else (0, [])
  (u.1 + p.1, u.2 ++ p.2)

/-- Step 6 of `analyze`: IME usage (human indicator, no reason pushed). -/
def AutomationDetector.imeStep (stats : Stats) : ℕ × Option ℕ :=
  let imeTotal := stats.imeUser + stats.imePass
  if 0 < imeTotal then (3, some imeTotal) else (0, none)

/-- Step 7 of `analyze`: Shift/CapsLock usage (human indicators, no reasons
pushed); note this step reads `stats.shiftCount`/`stats.capsLockCount` only. -/
def AutomationDetector.shiftCapsStep (stats : Stats) : ℕ × Option ℕ × Option ℕ :=
  let shiftCount := stats.shiftCount
  let capsLockCount := stats.capsLockCount
  ((if 0 < shiftCount then 2 else 0) + (if 0 < capsLockCount then 1 else 0),
    (if 0 < shiftCount then some shiftCount else none),
    (if 0 < capsLockCount then some capsLockCount else none))

/-- The total bot score summed by `analyze`, in step order. -/
noncomputable def AutomationDetector.botScoreOf (stats : Stats) : ℕ :=
  (AutomationDetector.fieldStep "Username" (AutomationDetector.userPatternOf stats)).bot
  + (AutomationDetector.fieldStep "Password" (AutomationDetector.passPatternOf stats)).bot
  + (AutomationDetector.timingStep stats).1
  + (AutomationDetector.trajectoryStep stats).bot
  + (AutomationDetector.pasteStep stats).1
  + weightSum (AutomationDetector.detectPasswordMismatch stats).1
  + weightSum (AutomationDetector.detectWebDriver stats)
  + weightSum (AutomationDetector.detectSyntheticEvents stats)

/-- The total human score summed by `analyze`. -/
noncomputable def AutomationDetector.humanScoreOf (stats : Stats) : ℕ :=
  (AutomationDetector.fieldStep "Username" (AutomationDetector.userPatternOf stats)).human
  + (AutomationDetector.fieldStep "Password" (AutomationDetector.passPatternOf stats)).human
  + (AutomationDetector.trajectoryStep stats).human
  + (AutomationDetector.imeStep stats).1
  + (AutomationDetector.shiftCapsStep stats).1

/-- The `result.reasons` list pushed by `analyze`, in step order. -/
noncomputable def AutomationDetector.reasonsOf (stats : Stats) : List String :=
  (AutomationDetector.fieldStep "Username" (AutomationDetector.userPatternOf stats)).reasons
  ++ (AutomationDetector.fieldStep "Password" (AutomationDetector.passPatternOf stats)).reasons
  ++ (AutomationDetector.timingStep stats).2
  ++ (AutomationDetector.trajectoryStep stats).reasons
  ++ (AutomationDetector.pasteStep stats).2
  ++ ((AutomationDetector.detectPasswordMismatch stats).1.map SignalFlag.reason)
  ++ ((AutomationDetector.detectWebDriver stats).map fun f => "[Automation] " ++ f.reason)
  ++ ((AutomationDetector.detectSyntheticEvents stats).map fun f => "[Events] " ++ f.reason)

/-- The final confidence computation of `analyze`:
`totalScore > 0 ? Math.round((botScore / totalScore) * 100) : 0`. -/
def AutomationDetector.confidenceOf (botScore humanScore : ℕ) : ℕ :=
  let totalScore := botScore + humanScore
  if 0 < totalScore then
    (jsRound ((botScore : ℚ) / (totalScore : ℚ) * 100)).toNat
  else 0

/-- The `result.details` record built up by `analyze`. -/
structure Details where
  userPattern : Option FieldPattern
  passPattern : Option FieldPattern
  userAnalysis : Option FieldAnalysis
  passAnalysis : Option FieldAnalysis
  userSeekDistribution : Option DistResult
  passSeekDistribution : Option DistResult
  trajectoryAnalysis : Option TrajResult
  ime : Option ℕ
  shift : Option ℕ
  capsLock : Option ℕ
  passwordAnalysis : Option PasswordDetails
deriving DecidableEq

/-- The details assembled by `analyze`. -/
noncomputable def AutomationDetector.detailsOf (stats : Stats) : Details :=
  { userPattern := AutomationDetector.userPatternOf stats
    passPattern := AutomationDetector.passPatternOf stats
    userAnalysis :=
      (AutomationDetector.fieldStep "Username" (AutomationDetector.userPatternOf stats)).analysis
    passAnalysis :=
      (AutomationDetector.fieldStep "Password" (AutomationDetector.passPatternOf stats)).analysis
    userSeekDistribution :=
      (AutomationDetector.fieldStep "Username" (AutomationDetector.userPatternOf stats)).dist
    passSeekDistribution :=
      (AutomationDetector.fieldStep "Password" (AutomationDetector.passPatternOf stats)).dist
    trajectoryAnalysis := (AutomationDetector.trajectoryStep stats).analysis
    ime := (AutomationDetector.imeStep stats).2
    shift := (AutomationDetector.shiftCapsStep stats).2.1
    capsLock := (AutomationDetector.shiftCapsStep stats).2.2
    passwordAnalysis := (AutomationDetector.detectPasswordMismatch stats).2 }

/-- The `scores` record of the result. -/
structure Scores where
  bot : ℕ
  human : ℕ
deriving DecidableEq, Repr

/-- The result object of `AutomationDetector.analyze`. The degraded
no-parser result carries no `details`/`scores` fields, hence the `Option`s. -/
structure AnalysisResult where
  isBot : Bool
  confidence : ℕ
  reasons : List String
  details : Option Details
  scores : Option Scores
deriving DecidableEq

/-- The main body of `AutomationDetector.analyze` (once a parser is
available). -/
noncomputable def AutomationDetector.analyzeCore (stats : Stats) : AnalysisResult :=
  let botScore := AutomationDetector.botScoreOf stats
  let humanScore := AutomationDetector.humanScoreOf stats
  let confidence := AutomationDetector.confidenceOf botScore humanScore
  { isBot := decide (AutomationDetector.thresholds.decision.botProbabilityThreshold < confidence)
    confidence := confidence
    reasons := AutomationDetector.reasonsOf stats
    details := some (AutomationDetector.detailsOf stats)
    scores := some ⟨botScore, humanScore⟩ }

/-- The `AutomationDetector.analyze(stats, parser)`. `parserAvailable` models
`parser || TypingParser`: it is false exactly when no parser argument is given
and no ambient `TypingParser` exists, in which case the source logs an error
and returns the degraded `{isBot:false, confidence:0, reasons:[]}` object. -/
noncomputable def AutomationDetector.analyze (stats : Stats) (parserAvailable : Bool) :
    AnalysisResult :=
  if parserAvailable then AutomationDetector.analyzeCore stats
  else { isBot := false, confidence := 0, reasons := [], details := none, scores := none }

/-- The `ime` threshold group of the `TypingAnalyzer` table. -/
structure ImeThresholds where
  humanIndicator : Bool

/-- The `TypingAnalyzer.thresholds` table shape. -/
structure LThresholds where
  seekTime : SeekTimeThresholds
  pressTime : PressTimeThresholds
  trajectory : TrajectoryThresholds
  timing : TimingThresholds
  ime : ImeThresholds

/-- The static `TypingAnalyzer.thresholds` configuration. -/
def TypingAnalyzer.thresholds : LThresholds :=
  { seekTime := { botMax := 50, humanMin := 80, tooFast := 30, uniformStdMax := 20 }
    pressTime := { botMax := 20, humanMin := 40, uniformStdMax := 10 }
    trajectory := { minPoints := 3, minDistance := 50 }
    timing := { userToPassMin := 300, passToLoginMin := 100 }
    ime := { humanIndicator := true } }

/-- Summary statistics of the `TypingAnalyzer`'s local `calcStats` (which,
unlike the parser module's, has no `range` field). -/
structure LSummary where
  avg : ℤ
  min : ℤ
  max : ℤ
  std : ℤ
deriving DecidableEq, Repr

/-- Decoded result of `TypingAnalyzer.parsePattern` for one field. -/
structure LFieldPattern where
  keystrokeCount : ℕ
  seekTime : LSummary
  pressTime : LSummary
  longPauses : ℕ
  keystrokes : List Keystroke
  raw : RawTimes
deriving DecidableEq, Repr

/-- The `TypingAnalyzer`'s local `calcStats`. -/
def TypingAnalyzer.calcStats (arr : List ℤ) : LSummary :=
  match arr with
  | [] => ⟨0, 0, 0, 0⟩
  | x :: xs =>
    let l := x :: xs
    let std : ℕ := if 1 < l.length then jsRoundSqrt (zVariance l) else 0
    ⟨jsRound (zMean l), listMin l, listMax l, (std : ℤ)⟩

/-- The `TypingAnalyzer.parsePattern` — the duplicated decoder of the second
analyzer; identical to `TypingParser.parsePattern` except for the summary
shape. -/
def TypingAnalyzer.parsePattern (patternStr : String) : Option LFieldPattern :=
  if patternStr = "" then none
  else
    let segments := splitOnChar '|' patternStr.data
    if segments.length < 2 then none
    else
      let keystrokes : List Keystroke := (segments.drop 1).map fun seg =>
        let parts := splitOnChar ',' seg
        ⟨jsParseIntAt parts 0, jsParseIntAt parts 1⟩
      let seekTimes := (keystrokes.map Keystroke.seekTime).filter fun t => decide (0 < t)
      let pressTimes := (keystrokes.map Keystroke.pressTime).filter fun t => decide (0 < t)
      let longPauses := (seekTimes.filter fun t => decide (500 < t)).length
      some ⟨keystrokes.length, TypingAnalyzer.calcStats seekTimes,
        TypingAnalyzer.calcStats pressTimes, longPauses, keystrokes,
        ⟨seekTimes, pressTimes⟩⟩

/-- A `TypingAnalyzer` flag `{type, feature, reason}` with `type` one of
`"bot"`/`"human"`. -/
structure LFlag where
  type : String
  feature : String
  reason : String
deriving DecidableEq, Repr

/-- Result of `TypingAnalyzer.analyzeFieldTyping`; the invalid result carries
only `{valid:false, reason}` in the source, modelled with an empty flag
list (never read on the invalid result). -/
structure LFieldAnalysis where
  valid : Bool
  reason : Option String
  flags : List LFlag
deriving DecidableEq, Repr

/-- The `botFlags` projection: `flags.filter(f => f.type === "bot")`. -/
def LFieldAnalysis.botFlags (a : LFieldAnalysis) : List LFlag :=
  a.flags.filter fun f => f.type == "bot"

/-- The `humanFlags` projection: `flags.filter(f => f.type === "human")`. -/
def LFieldAnalysis.humanFlags (a : LFieldAnalysis) : List LFlag :=
  a.flags.filter fun f => f.type == "human"

/-- The `TypingAnalyzer.analyzeFieldTyping`, flags in source emission order. -/
def TypingAnalyzer.analyzeFieldTyping (pattern : Option LFieldPattern) : LFieldAnalysis :=
  match pattern with
  | none => ⟨false, some "No typing data", []⟩
  | some p =>
    if p.keystrokeCount = 0 then ⟨false, some "No typing data", []⟩
    else
      let th := TypingAnalyzer.thresholds
      let flags : List LFlag :=
        (if p.seekTime.avg < th.seekTime.tooFast then
          [⟨"bot", "seekTime", "Extremely short key interval (" ++
            toString p.seekTime.avg ++ "ms < " ++ toString th.seekTime.tooFast ++ "ms)"⟩]
        else if p.seekTime.avg < th.seekTime.botMax then
          [⟨"bot", "seekTime", "Key interval too short (" ++ toString p.seekTime.avg ++
            "ms < " ++ toString th.seekTime.botMax ++ "ms)"⟩]
        else [])
        ++ (if p.seekTime.std < th.seekTime.uniformStdMax ∧ 3 < p.keystrokeCount then
          [⟨"bot", "seekTimeStd", "Key interval too uniform (std=" ++
            toString p.seekTime.std ++ "ms < " ++ toString th.seekTime.uniformStdMax ++
            "ms)"⟩]
        else [])
        ++ (if 0 < p.pressTime.avg ∧ p.pressTime.avg < th.pressTime.botMax then
          [⟨"bot", "pressTime", "Extremely short key press duration (" ++
            toString p.pressTime.avg ++ "ms < " ++ toString th.pressTime.botMax ++ "ms)"⟩]
        else [])
        ++ (if p.pressTime.std < th.pressTime.uniformStdMax ∧ 3 < p.keystrokeCount ∧
              0 < p.pressTime.avg then
          [⟨"bot", "pressTimeStd", "Key press duration too uniform (std=" ++
            toString p.pressTime.std ++ "ms < " ++ toString th.pressTime.uniformStdMax ++
            "ms)"⟩]
        else [])
        ++ (if th.seekTime.humanMin < p.seekTime.avg then
          [⟨"human", "seekTime", "Normal key interval (" ++ toString p.seekTime.avg ++
            "ms)"⟩]
        else [])
        ++ (if th.pressTime.humanMin < p.pressTime.avg then
          [⟨"human", "pressTime", "Normal key press duration (" ++
            toString p.pressTime.avg ++ "ms)"⟩]
        else [])
        ++ (if 0 < p.longPauses then
          [⟨"human", "longPauses", "Has long pauses (" ++ toString p.longPauses ++
            "x > 500ms), possibly thinking"⟩]
        else [])
      ⟨true, none, flags⟩

/-- The trajectory summary consumed by `TypingAnalyzer.analyzeLogin`
(pre-aggregated `{points, distancePx, captured}`; the distance is an integer
pixel count here, which is all the reason strings interpolate). -/
structure LTrajectory where
  points : ℕ
  distancePx : ℤ
  captured : Bool
deriving DecidableEq, Repr

/-- The request object consumed by `TypingAnalyzer.analyzeLogin`. -/
structure LoginStats where
  typingdna : Option Typingdna := none
  usernameToPasswordMs : Option ℤ := none
  passwordToLoginMs : Option ℤ := none
  trajectory : Option LTrajectory := none
  pasteUser : ℕ := 0
  pastePass : ℕ := 0
  usernameIMECompositionCount : ℕ := 0
  imeUser : ℕ := 0
  passwordIMECompositionCount : ℕ := 0
  imePass : ℕ := 0
  passwordShiftCount : ℕ := 0
  shiftCount : ℕ := 0
  passwordCapsLockCount : ℕ := 0
  capsLockCount : ℕ := 0
  password : String := ""

/-- The `details.ime` record of `analyzeLogin`. -/
structure LIme where
  username : ℕ
  password : ℕ
  total : ℕ
deriving DecidableEq, Repr

/-- One `details.username`/`details.password` entry of `analyzeLogin`. -/
structure LPatternDetail where
  pattern : Option LFieldPattern
  analysis : LFieldAnalysis
deriving DecidableEq, Repr

/-- The `details` record of `analyzeLogin`. -/
structure LDetails where
  username : LPatternDetail
  password : LPatternDetail
  ime : Option LIme
  shift : Option ℕ
  capsLock : Option ℕ
  passwordAnalysis : Option PasswordDetails
deriving DecidableEq, Repr

/-- The result object of `TypingAnalyzer.analyzeLogin` (its `scores` and
`details` fields are always set). -/
structure LResult where
  isBot : Bool
  confidence : ℕ
  reasons : List String
  details : LDetails
  scores : Scores
deriving DecidableEq

/-- The parsed username pattern of `analyzeLogin`. -/
def TypingAnalyzer.lUserPattern (stats : LoginStats) : Option LFieldPattern :=
  (stats.typingdna.bind Typingdna.lastUserTp).bind TypingAnalyzer.parsePattern

/-- The parsed password pattern of `analyzeLogin`. -/
def TypingAnalyzer.lPassPattern (stats : LoginStats) : Option LFieldPattern :=
  (stats.typingdna.bind Typingdna.lastPassTp).bind TypingAnalyzer.parsePattern

/-- The `stats.usernameIMECompositionCount || stats.imeUser || 0`. -/
def TypingAnalyzer.imeUserCount (stats : LoginStats) : ℕ :=
  if stats.usernameIMECompositionCount ≠ 0 then stats.usernameIMECompositionCount
  else stats.imeUser

/-- The `stats.passwordIMECompositionCount || stats.imePass || 0`. -/
def TypingAnalyzer.imePassCount (stats : LoginStats) : ℕ :=
  if stats.passwordIMECompositionCount ≠ 0 then stats.passwordIMECompositionCount
  else stats.imePass

/-- The `stats.passwordShiftCount || stats.shiftCount || 0`. -/
def TypingAnalyzer.lShiftCount (stats : LoginStats) : ℕ :=
  if stats.passwordShiftCount ≠ 0 then stats.passwordShiftCount else stats.shiftCount

/-- The `stats.passwordCapsLockCount || stats.capsLockCount || 0`. -/
def TypingAnalyzer.lCapsLockCount (stats : LoginStats) : ℕ :=
  if stats.passwordCapsLockCount ≠ 0 then stats.passwordCapsLockCount
  else stats.capsLockCount

/-- The password-mismatch condition of `analyzeLogin` (step 8): password
nonempty, needs Shift, and neither Shift/CapsLock nor paste was used. -/
def TypingAnalyzer.pwdMismatchFires (stats : LoginStats) : Bool :=
  if stats.password = "" then false
  else
    let hasUpperCase := stats.password.data.any fun c => decide ('A' ≤ c ∧ c ≤ 'Z')
    let hasSpecialChar := stats.password.data.any fun c => specialChars.data.contains c
    let needsShift := hasUpperCase || hasSpecialChar
    let usedShiftOrCaps :=
      decide (0 < TypingAnalyzer.lShiftCount stats) ||
      decide (0 < TypingAnalyzer.lCapsLockCount stats)
    let usedPaste := decide (0 < stats.pastePass)
    needsShift && !usedShiftOrCaps && !usedPaste

/-- The `details.passwordAnalysis` record of `analyzeLogin` (set only when
the password is nonempty). -/
def TypingAnalyzer.lPasswordAnalysis (stats : LoginStats) : Option PasswordDetails :=
  if stats.password = "" then none
  else
    let hasUpperCase := stats.password.data.any fun c => decide ('A' ≤ c ∧ c ≤ 'Z')
    let hasSpecialChar := stats.password.data.any fun c => specialChars.data.contains c
    some ⟨hasUpperCase, hasSpecialChar, hasUpperCase || hasSpecialChar,
      decide (0 < TypingAnalyzer.lShiftCount stats) ||
        decide (0 < TypingAnalyzer.lCapsLockCount stats),
      decide (0 < stats.pastePass)⟩

/-- The bot score accumulated by `analyzeLogin`, in step order: each bot
flag of a valid field analysis counts 2, timing misses 2 each, trajectory
shortfalls 1 each, pastes 1 each, the password mismatch 3. -/
def TypingAnalyzer.lBotScoreOf (stats : LoginStats) : ℕ :=
  (let a := TypingAnalyzer.analyzeFieldTyping (TypingAnalyzer.lUserPattern stats)
   if a.valid then a.botFlags.length * 2 else 0)
  + (let a := TypingAnalyzer.analyzeFieldTyping (TypingAnalyzer.lPassPattern stats)
     if a.valid then a.botFlags.length * 2 else 0)
  + (match stats.usernameToPasswordMs with
     | some ms => if ms < TypingAnalyzer.thresholds.timing.userToPassMin then 2 else 0
     | none => 0)
  + (match stats.passwordToLoginMs with
     | some ms => if ms < TypingAnalyzer.thresholds.timing.passToLoginMin then 2 else 0
     | none => 0)
  + (match stats.trajectory with
     | some traj =>
       (if traj.points < TypingAnalyzer.thresholds.trajectory.minPoints then 1 else 0)
       + (if traj.distancePx < TypingAnalyzer.thresholds.trajectory.minDistance ∧
            traj.captured then 1 else 0)
     | none => 0)
  + (if 0 < stats.pasteUser then 1 else 0)
  + (if 0 < stats.pastePass then 1 else 0)
  + (if TypingAnalyzer.pwdMismatchFires stats then 3 else 0)

/-- The human score accumulated by `analyzeLogin`: each human flag of a
valid field analysis counts 1, trajectory sufficiency 2, IME 3, Shift 2,
CapsLock 1. -/
def TypingAnalyzer.lHumanScoreOf (stats : LoginStats) : ℕ :=
  (let a := TypingAnalyzer.analyzeFieldTyping (TypingAnalyzer.lUserPattern stats)
   if a.valid then a.humanFlags.length else 0)
  + (let a := TypingAnalyzer.analyzeFieldTyping (TypingAnalyzer.lPassPattern stats)
     if a.valid then a.humanFlags.length else 0)
  + (match stats.trajectory with
     | some traj => if 5 < traj.points ∧ 100 < traj.distancePx then 2 else 0
     | none => 0)
  + (if 0 < TypingAnalyzer.imeUserCount stats + TypingAnalyzer.imePassCount stats then 3
     else 0)
  + (if 0 < TypingAnalyzer.lShiftCount stats then 2 else 0)
  + (if 0 < TypingAnalyzer.lCapsLockCount stats then 1 else 0)

/-- The reasons pushed by `analyzeLogin`, in step order (only bot flags of
the field analyses push reasons; human flags and human indicators do not). -/
def TypingAnalyzer.lReasonsOf (stats : LoginStats) : List String :=
  (let a := TypingAnalyzer.analyzeFieldTyping (TypingAnalyzer.lUserPattern stats)
   if a.valid then a.botFlags.map (fun f => "[Username] " ++ f.reason) else [])
  ++ (let a := TypingAnalyzer.analyzeFieldTyping (TypingAnalyzer.lPassPattern stats)
      if a.valid then a.botFlags.map (fun f => "[Password] " ++ f.reason) else [])
  ++ (match stats.usernameToPasswordMs with
      | some ms =>
        if ms < TypingAnalyzer.thresholds.timing.userToPassMin then
          ["Username to password interval too short (" ++ toString ms ++ "ms < " ++
            toString TypingAnalyzer.thresholds.timing.userToPassMin ++ "ms)"]
        else []
      | none => [])
  ++ (match stats.passwordToLoginMs with
      | some ms =>
        if ms < TypingAnalyzer.thresholds.timing.passToLoginMin then
          ["Password to login interval too short (" ++ toString ms ++ "ms < " ++
            toString TypingAnalyzer.thresholds.timing.passToLoginMin ++ "ms)"]
        else []
      | none => [])
  ++ (match stats.trajectory with
      | some traj =>
        (if traj.points < TypingAnalyzer.thresholds.trajectory.minPoints then
          ["Too few mouse trajectory points (" ++ toString traj.points ++ " < " ++
            toString TypingAnalyzer.thresholds.trajectory.minPoints ++ ")"]
        else [])
        ++ (if traj.distancePx < TypingAnalyzer.thresholds.trajectory.minDistance ∧
              traj.captured then
          ["Mouse movement distance too short (" ++ toString traj.distancePx ++
            "px < " ++ toString TypingAnalyzer.thresholds.trajectory.minDistance ++ "px)"]
        else [])
      | none => [])
  ++ (if 0 < stats.pasteUser then ["Username was pasted"] else [])
  ++ (if 0 < stats.pastePass then ["Password was pasted"] else [])
  ++ (if TypingAnalyzer.pwdMismatchFires stats then
      ["Password contains uppercase or special chars but no Shift/CapsLock detected and not pasted"]
    else [])

/-- The `TypingAnalyzer.analyzeLogin`: runs the duplicated decoder and field
analysis on both fields, accumulates the scores and reasons above, computes
`confidence = Math.round(botScore / totalScore * 100)` (0 when the total is
0) and decides `isBot = botScore >= 3 || confidence > 60`. -/
def TypingAnalyzer.analyzeLogin (stats : LoginStats) : LResult :=
  let botScore := TypingAnalyzer.lBotScoreOf stats
  let humanScore := TypingAnalyzer.lHumanScoreOf stats
  let totalScore := botScore + humanScore
  let confidence : ℕ :=
    if 0 < totalScore then (jsRound ((botScore : ℚ) / (totalScore : ℚ) * 100)).toNat
    else 0
  { isBot := decide (3 ≤ botScore) || decide (60 < confidence)
    confidence := confidence
    reasons := TypingAnalyzer.lReasonsOf stats
    details :=
      { username :=
          ⟨TypingAnalyzer.lUserPattern stats,
            TypingAnalyzer.analyzeFieldTyping (TypingAnalyzer.lUserPattern stats)⟩
        password :=
          ⟨TypingAnalyzer.lPassPattern stats,
            TypingAnalyzer.analyzeFieldTyping (TypingAnalyzer.lPassPattern stats)⟩
        ime :=
          (let u := TypingAnalyzer.imeUserCount stats
           let p := TypingAnalyzer.imePassCount stats
           if 0 < u + p then some ⟨u, p, u + p⟩ else none)
        shift :=
          (if 0 < TypingAnalyzer.lShiftCount stats then
            some (TypingAnalyzer.lShiftCount stats)
          else none)
        capsLock :=
          (if 0 < TypingAnalyzer.lCapsLockCount stats then
            some (TypingAnalyzer.lCapsLockCount stats)
          else none)
        passwordAnalysis := TypingAnalyzer.lPasswordAnalysis stats }
    scores := ⟨botScore, humanScore⟩ }

/-- The confidence formula as the specification states it:
`round(100 * botScore / (botScore + humanScore))`, defined as 0 when both
scores are 0. Stated independently of the code's
`Math.round((botScore / totalScore) * 100)` rendering. -/
def confidenceSpec (botScore humanScore : ℕ) : ℤ :=
  if botScore + humanScore = 0 then 0
  else ⌊(100 * (botScore : ℚ)) / ((botScore : ℚ) + (humanScore : ℚ)) + 1/2⌋

/-- Specification-side reason list for one typing field: the reasons of the
triggered bot-tagged field flags with the field label prefix, followed — when
the field has more than 4 positive seek intervals — by the triggered
Gaussian-pattern flag reasons with the `SeekTime` label prefix. -/
noncomputable def AutomationDetector.fieldBotReasonsSpec (label : String)
    (pat : Option FieldPattern) : List String :=
  match pat with
  | none => []
  | some p =>
    ((AutomationDetector.analyzeFieldTyping (some p)).botFlags.map
      fun f => "[" ++ label ++ "] " ++ f.reason)
    ++ (if 4 < p.raw.seekTimes.length then
        (AutomationDetector.detectGaussianPattern
          (TypingParser.analyzeDistribution
            (p.raw.seekTimes.map fun t => (t : ℚ)))).map
          fun f => "[" ++ label ++ " SeekTime] " ++ f.reason
      else [])

/-- Specification-side reason list of a full analysis: exactly the triggered
bot-tagged flags contribute, in detector invocation order — username field
(and its seek distribution), password field (and its seek distribution),
timing checks, trajectory checks (prefixed `[Trajectory] `), pastes, password
mismatch, environment flags (prefixed `[Automation] `) and synthetic events
(prefixed `[Events] `); human-tagged flags contribute no reasons. -/
noncomputable def AutomationDetector.reasonsSpec (stats : Stats) : List String :=
  AutomationDetector.fieldBotReasonsSpec "Username" (AutomationDetector.userPatternOf stats)
  ++ AutomationDetector.fieldBotReasonsSpec "Password" (AutomationDetector.passPatternOf stats)
  ++ (AutomationDetector.timingStep stats).2
  ++ (match stats.trajectory with
      | none => []
      | some traj =>
        let ta := TypingParser.analyzeTrajectory traj
        if ta.valid then
          (if ta.points < AutomationDetector.thresholds.trajectory.minPoints then
            ["Too few trajectory points (" ++ toString ta.points ++ " < " ++
              toString AutomationDetector.thresholds.trajectory.minPoints ++ ")"]
          else [])
          ++ (if ta.distance < AutomationDetector.thresholds.trajectory.minDistance ∧
                traj.captured then
            ["Mouse distance too short (" ++ toString ta.distance ++ "px < " ++
              toString AutomationDetector.thresholds.trajectory.minDistance ++ "px)"]
          else [])
          ++ ((AutomationDetector.detectTrajectoryAutomation ta).map
              fun f => "[Trajectory] " ++ f.reason)
        else [])
  ++ (AutomationDetector.pasteStep stats).2
  ++ ((AutomationDetector.detectPasswordMismatch stats).1.map SignalFlag.reason)
  ++ ((AutomationDetector.detectWebDriver stats).map fun f => "[Automation] " ++ f.reason)
  ++ ((AutomationDetector.detectSyntheticEvents stats).map fun f => "[Events] " ++ f.reason)

/-- The code's `totalScore > 0 ? Math.round((botScore / totalScore) * 100) : 0`
agrees with the specification's `round(100 * botScore / (botScore + humanScore))`
(0 when both scores are 0). -/
theorem confidenceOf_cast (b h : ℕ) :
    (AutomationDetector.confidenceOf b h : ℤ) = confidenceSpec b h := by
  unfold AutomationDetector.confidenceOf confidenceSpec
  rcases Nat.eq_zero_or_pos (b + h) with h0 | hpos
  · simp [h0]
  · rw [if_pos hpos, if_neg (Nat.pos_iff_ne_zero.mp hpos)]
    have h1 : ((b + h : ℕ) : ℚ) = (b : ℚ) + (h : ℚ) := by push_cast; ring
    have h2 : (b : ℚ) / ((b : ℚ) + (h : ℚ)) * 100 = 100 * (b : ℚ) / ((b : ℚ) + (h : ℚ)) := by
      ring
    rw [jsRound, h1, h2, Int.toNat_of_nonneg]
    exact Int.le_floor.mpr (by positivity)

/-- Zero scores give zero confidence. -/
theorem confidenceOf_zero : AutomationDetector.confidenceOf 0 0 = 0 := rfl

/-- A positive bot score with zero human score gives confidence exactly 100. -/
theorem confidenceOf_human_zero (b : ℕ) (hb : 0 < b) :
    AutomationDetector.confidenceOf b 0 = 100 := by
  unfold AutomationDetector.confidenceOf jsRound
  rw [if_pos (by omega)]
  have hb' : ((b + 0 : ℕ) : ℚ) ≠ 0 := by
    have : (0:ℚ) < ((b + 0 : ℕ) : ℚ) := by exact_mod_cast Nat.add_pos_left hb 0
    exact this.ne'
  have hbb : (b : ℚ) / ((b + 0 : ℕ) : ℚ) = 1 := by
    rw [div_eq_one_iff_eq hb']; push_cast; ring
  rw [hbb]
  norm_num
  rfl

/-- C1: for every analysis call (of either implementation), the returned
confidence equals `round(100 * botScore / (botScore + humanScore))` over the
returned scores, is 0 when both scores are 0, and is exactly 100 when the
human score is 0 and the bot score positive. -/
theorem claim_C1_confidence_formula :
    (∀ (s : Stats) (b h : ℕ),
      (AutomationDetector.analyze s true).scores = some ⟨b, h⟩ →
      ((AutomationDetector.analyze s true).confidence : ℤ) = confidenceSpec b h
      ∧ (b = 0 ∧ h = 0 → (AutomationDetector.analyze s true).confidence = 0)
      ∧ (h = 0 ∧ 0 < b → (AutomationDetector.analyze s true).confidence = 100))
    ∧ (∀ (s : LoginStats) (b h : ℕ),
      (TypingAnalyzer.analyzeLogin s).scores = ⟨b, h⟩ →
      ((TypingAnalyzer.analyzeLogin s).confidence : ℤ) = confidenceSpec b h
      ∧ (b = 0 ∧ h = 0 → (TypingAnalyzer.analyzeLogin s).confidence = 0)
      ∧ (h = 0 ∧ 0 < b → (TypingAnalyzer.analyzeLogin s).confidence = 100)) := by
  constructor
  · intro s b h hsc
    have h2 : some (⟨AutomationDetector.botScoreOf s, AutomationDetector.humanScoreOf s⟩ :
        Scores) = some ⟨b, h⟩ := hsc
    have h3 := Option.some.inj h2
    have hb : AutomationDetector.botScoreOf s = b := congrArg Scores.bot h3
    have hh : AutomationDetector.humanScoreOf s = h := congrArg Scores.human h3
    have hc : (AutomationDetector.analyze s true).confidence
        = AutomationDetector.confidenceOf (AutomationDetector.botScoreOf s)
            (AutomationDetector.humanScoreOf s) := rfl
    rw [hc, hb, hh]
    refine ⟨confidenceOf_cast b h, ?_, ?_⟩
    · rintro ⟨rfl, rfl⟩; exact confidenceOf_zero
    · rintro ⟨rfl, hbpos⟩; exact confidenceOf_human_zero b hbpos
  · intro s b h hsc
    have h3 : (⟨TypingAnalyzer.lBotScoreOf s, TypingAnalyzer.lHumanScoreOf s⟩ : Scores)
        = ⟨b, h⟩ := hsc
    have hb : TypingAnalyzer.lBotScoreOf s = b := congrArg Scores.bot h3
    have hh : TypingAnalyzer.lHumanScoreOf s = h := congrArg Scores.human h3
    have hc : (TypingAnalyzer.analyzeLogin s).confidence
        = AutomationDetector.confidenceOf (TypingAnalyzer.lBotScoreOf s)
            (TypingAnalyzer.lHumanScoreOf s) := rfl
    rw [hc, hb, hh]
    refine ⟨confidenceOf_cast b h, ?_, ?_⟩
    · rintro ⟨rfl, rfl⟩; exact confidenceOf_zero
    · rintro ⟨rfl, hbpos⟩; exact confidenceOf_human_zero b hbpos

/-- Witness for C1 at the empty request on both implementations. -/
theorem claim_C1_confidence_formula_witness :
    ((AutomationDetector.analyze {} true).scores = some ⟨0, 0⟩
      ∧ ((AutomationDetector.analyze {} true).confidence : ℤ) = confidenceSpec 0 0)
    ∧ ((TypingAnalyzer.analyzeLogin {}).scores = ⟨0, 0⟩
      ∧ ((TypingAnalyzer.analyzeLogin {}).confidence : ℤ) = confidenceSpec 0 0) := by
  have h1 : (AutomationDetector.analyze {} true).scores = some ⟨0, 0⟩ := rfl
  have h2 : (TypingAnalyzer.analyzeLogin {}).scores = ⟨0, 0⟩ := rfl
  exact ⟨⟨h1, (claim_C1_confidence_formula.1 {} 0 0 h1).1⟩,
    ⟨h2, (claim_C1_confidence_formula.2 {} 0 0 h2).1⟩⟩

/-- C2 counterexample: a request on which `TypingAnalyzer.analyzeLogin`
returns `isBot = true` although the computed confidence (50) is not above
70 — its decision rule is `botScore >= 3 || confidence > 60`, not
`confidence > 70`. -/
theorem claim_C2_counterexample :
    (TypingAnalyzer.analyzeLogin
      { pasteUser := 1, usernameToPasswordMs := some 100, imeUser := 1 }).isBot = true
    ∧ ¬(70 < (TypingAnalyzer.analyzeLogin
      { pasteUser := 1, usernameToPasswordMs := some 100, imeUser := 1 }).confidence) := by
  have hb : TypingAnalyzer.lBotScoreOf
      { pasteUser := 1, usernameToPasswordMs := some 100, imeUser := 1 } = 3 := by decide
  have hh : TypingAnalyzer.lHumanScoreOf
      { pasteUser := 1, usernameToPasswordMs := some 100, imeUser := 1 } = 3 := by decide
  have hc : (TypingAnalyzer.analyzeLogin
      { pasteUser := 1, usernameToPasswordMs := some 100, imeUser := 1 }).confidence
      = AutomationDetector.confidenceOf
          (TypingAnalyzer.lBotScoreOf
            { pasteUser := 1, usernameToPasswordMs := some 100, imeUser := 1 })
          (TypingAnalyzer.lHumanScoreOf
            { pasteUser := 1, usernameToPasswordMs := some 100, imeUser := 1 }) := rfl
  have hcv : AutomationDetector.confidenceOf 3 3 = 50 := by
    norm_num [AutomationDetector.confidenceOf, jsRound]
    decide
  have hconf : (TypingAnalyzer.analyzeLogin
      { pasteUser := 1, usernameToPasswordMs := some 100, imeUser := 1 }).confidence = 50 := by
    rw [hc, hb, hh, hcv]
  have hi : (TypingAnalyzer.analyzeLogin
      { pasteUser := 1, usernameToPasswordMs := some 100, imeUser := 1 }).isBot
      = (decide (3 ≤ TypingAnalyzer.lBotScoreOf
          { pasteUser := 1, usernameToPasswordMs := some 100, imeUser := 1 })
        || decide (60 < (TypingAnalyzer.analyzeLogin
          { pasteUser := 1, usernameToPasswordMs := some 100, imeUser := 1 }).confidence)) :=
    rfl
  constructor
  · rw [hi, hb, hconf]
    decide
  · rw [hconf]
    omega

/-- C2 (amended): `AutomationDetector.analyze` decides
`isBot = confidence > botProbabilityThreshold` (default 70);
`TypingAnalyzer.analyzeLogin` instead decides
`isBot = botScore >= 3 || confidence > 60`. -/
theorem claim_C2_amended_decision_rules :
    (∀ s : Stats, (AutomationDetector.analyze s true).isBot
      = decide (AutomationDetector.thresholds.decision.botProbabilityThreshold
          < (AutomationDetector.analyze s true).confidence))
    ∧ (∀ s : LoginStats, (TypingAnalyzer.analyzeLogin s).isBot
      = (decide (3 ≤ (TypingAnalyzer.analyzeLogin s).scores.bot)
          || decide (60 < (TypingAnalyzer.analyzeLogin s).confidence))) :=
  ⟨fun _ => rfl, fun _ => rfl⟩

/-- C6: with no parser argument and no ambient `TypingParser`, `analyze`
returns the degraded `{isBot:false, confidence:0, reasons:[]}` result
(with no `scores`/`details`) instead of raising. -/
theorem claim_C6_no_parser_degraded (s : Stats) :
    AutomationDetector.analyze s false =
      { isBot := false, confidence := 0, reasons := [], details := none,
        scores := none } :=
  rfl

/-- C9: increasing the bot score while holding the human score fixed never
decreases the confidence computed by the analysis. -/
theorem claim_C9_confidence_monotone (humanScore b1 b2 : ℕ) (hb : b1 ≤ b2) :
    AutomationDetector.confidenceOf b1 humanScore ≤
      AutomationDetector.confidenceOf b2 humanScore := by
  unfold AutomationDetector.confidenceOf
  rcases Nat.eq_zero_or_pos (b1 + humanScore) with h0 | hpos
  · rw [if_neg (by omega)]
    exact Nat.zero_le _
  · have hpos2 : 0 < b2 + humanScore := by omega
    rw [if_pos hpos, if_pos hpos2]
    apply Int.toNat_le_toNat
    apply Int.floor_le_floor
    apply add_le_add_right
    have ht1 : (0:ℚ) < ((b1 + humanScore : ℕ) : ℚ) := by exact_mod_cast hpos
    have ht2 : (0:ℚ) < ((b2 + humanScore : ℕ) : ℚ) := by exact_mod_cast hpos2
    rw [div_mul_eq_mul_div, div_mul_eq_mul_div, div_le_div_iff₀ ht1 ht2]
    have hbq : (b1 : ℚ) ≤ (b2 : ℚ) := by exact_mod_cast hb
    have hhq : (0:ℚ) ≤ (humanScore : ℚ) := by positivity
    push_cast
    nlinarith

/-- Witness for C9 at the concrete scores (2, 3) and (5, 3). -/
theorem claim_C9_confidence_monotone_witness :
    2 ≤ 5 ∧ AutomationDetector.confidenceOf 2 3 ≤ AutomationDetector.confidenceOf 5 3 :=
  ⟨by decide, claim_C9_confidence_monotone 3 2 5 (by decide)⟩

/-- C5: fewer than 4 values make the distribution analyzer return
`{valid:false}`; at least 4 identical values (population standard deviation
exactly 0) make it return `{valid:true, isUniform:true}`, a result that by
construction carries no skewness or kurtosis values. -/
theorem claim_C5_distribution_contract :
    (∀ values : List ℚ, values.length < 4 →
      TypingParser.analyzeDistribution values = .invalid)
    ∧ (∀ (values : List ℚ) (c : ℚ), 4 ≤ values.length → (∀ x ∈ values, x = c) →
      TypingParser.analyzeDistribution values = .uniform) := by
  constructor
  · intro values hlen
    unfold TypingParser.analyzeDistribution
    rw [if_pos hlen]
  · intro values c hlen hall
    have hn : (values.length : ℚ) ≠ 0 := Nat.cast_ne_zero.mpr (by omega)
    have hmean : meanOf values = c := by
      unfold meanOf
      rw [List.sum_eq_card_nsmul values c hall, nsmul_eq_mul]
      field_simp
    have hvar : varianceOf values = 0 := by
      unfold varianceOf
      have hz : (values.map fun v => (v - meanOf values) ^ 2).sum = 0 := by
        apply List.sum_eq_zero
        intro x hx
        obtain ⟨v, hv, rfl⟩ := List.mem_map.mp hx
        rw [hmean, hall v hv, sub_self]
        ring
      rw [hz, zero_div]
    unfold TypingParser.analyzeDistribution
    rw [if_neg (by omega)]
    simp only [hvar, if_pos rfl]
    rfl

/-- Witness for C5 at `[1, 2]` (too short) and `[5, 5, 5, 5]` (uniform). -/
theorem claim_C5_distribution_contract_witness :
    ([(1:ℚ), 2].length < 4 ∧ TypingParser.analyzeDistribution [1, 2] = .invalid)
    ∧ (4 ≤ [(5:ℚ), 5, 5, 5].length ∧ (∀ x ∈ [(5:ℚ), 5, 5, 5], x = 5)
      ∧ TypingParser.analyzeDistribution [5, 5, 5, 5] = .uniform) := by
  refine ⟨⟨by norm_num, claim_C5_distribution_contract.1 _ (by norm_num)⟩,
    ⟨by norm_num, by simp, claim_C5_distribution_contract.2 _ 5 (by norm_num) (by simp)⟩⟩

/-- The `Nat.sqrt` is the floor of the real square root. -/
theorem natFloor_real_sqrt (n : ℕ) : ⌊Real.sqrt (n : ℝ)⌋₊ = Nat.sqrt n := by
  apply le_antisymm
  · have hlt : (n : ℝ) < ((Nat.sqrt n + 1 : ℕ) : ℝ) ^ 2 := by
      have h2 : n < (Nat.sqrt n + 1) ^ 2 := by
        simpa [Nat.succ_eq_add_one] using Nat.lt_succ_sqrt' n
      exact_mod_cast h2
    have h1 : Real.sqrt n < ((Nat.sqrt n + 1 : ℕ) : ℝ) := by
      calc Real.sqrt n < Real.sqrt (((Nat.sqrt n + 1 : ℕ) : ℝ) ^ 2) :=
            Real.sqrt_lt_sqrt (by positivity) hlt
        _ = ((Nat.sqrt n + 1 : ℕ) : ℝ) := Real.sqrt_sq (by positivity)
    have := (Nat.floor_lt (Real.sqrt_nonneg _)).mpr h1
    omega
  · apply Nat.le_floor
    have hsq : ((Nat.sqrt n : ℕ) : ℝ) ^ 2 ≤ (n : ℝ) := by
      have h2 : Nat.sqrt n ^ 2 ≤ n := Nat.sqrt_le' n
      exact_mod_cast h2
    calc ((Nat.sqrt n : ℕ) : ℝ) = Real.sqrt (((Nat.sqrt n : ℕ) : ℝ) ^ 2) :=
          (Real.sqrt_sq (by positivity)).symm
      _ ≤ Real.sqrt n := Real.sqrt_le_sqrt hsq


/-- The `ratSqrtFloor` is the floor of the real square root of a nonnegative
rational. -/
theorem ratSqrtFloor_eq (q : ℚ) (hq : 0 ≤ q) :
    ratSqrtFloor q = ⌊Real.sqrt (q : ℝ)⌋₊ := by
  unfold ratSqrtFloor
  have hb : (0:ℝ) < (q.den : ℝ) := by exact_mod_cast q.den_pos
  have hq' : (0:ℝ) ≤ ((q : ℚ) : ℝ) := by exact_mod_cast hq
  have h1 : ((q : ℚ) : ℝ) * (q.den : ℝ) ^ 2 = ((q.num.toNat * q.den : ℕ) : ℝ) := by
    have hnn : (0:ℤ) ≤ q.num := Rat.num_nonneg.mpr hq
    have hnum : ((q.num.toNat : ℕ) : ℝ) = ((q.num : ℤ) : ℝ) := by
      exact_mod_cast congrArg (fun z : ℤ => (z : ℝ)) (Int.toNat_of_nonneg hnn)
    rw [Rat.cast_def]
    push_cast
    rw [hnum]
    field_simp
    ring
  have key : Real.sqrt ((q : ℚ) : ℝ) =
      Real.sqrt ((q.num.toNat * q.den : ℕ) : ℝ) / (q.den : ℝ) := by
    rw [eq_div_iff hb.ne']
    calc Real.sqrt ((q : ℚ) : ℝ) * (q.den : ℝ)
        = Real.sqrt ((q : ℚ) : ℝ) * Real.sqrt ((q.den : ℝ) ^ 2) := by
          rw [Real.sqrt_sq hb.le]
      _ = Real.sqrt (((q : ℚ) : ℝ) * (q.den : ℝ) ^ 2) := (Real.sqrt_mul hq' _).symm
      _ = Real.sqrt ((q.num.toNat * q.den : ℕ) : ℝ) := by rw [h1]
  rw [key, Nat.floor_div_nat, natFloor_real_sqrt]

/-- The `jsRoundSqrt` is `Math.round (Math.sqrt q)`, i.e. the floor of
`sqrt q + 1/2`, for every nonnegative rational. -/
theorem jsRoundSqrt_eq (q : ℚ) (hq : 0 ≤ q) :
    jsRoundSqrt q = ⌊Real.sqrt ((q : ℚ) : ℝ) + 1/2⌋₊ := by
  unfold jsRoundSqrt
  rw [ratSqrtFloor_eq (4 * q) (by positivity)]
  have h4 : Real.sqrt (((4 * q : ℚ)) : ℝ) = 2 * Real.sqrt ((q : ℚ) : ℝ) := by
    push_cast
    rw [show (4:ℝ) * ((q : ℚ) : ℝ) = (2:ℝ) ^ 2 * ((q : ℚ) : ℝ) by ring,
      Real.sqrt_mul (by positivity), Real.sqrt_sq (by norm_num)]
  rw [h4]
  set x := Real.sqrt ((q : ℚ) : ℝ) with hxdef
  have hx0 : 0 ≤ x := Real.sqrt_nonneg _
  have h1 : ((⌊2 * x⌋₊ : ℕ) : ℝ) ≤ 2 * x := Nat.floor_le (by positivity)
  have h2 : 2 * x < (⌊2 * x⌋₊ : ℕ) + 1 := Nat.lt_floor_add_one _
  have h3 : ((⌊x + 1/2⌋₊ : ℕ) : ℝ) ≤ x + 1/2 := Nat.floor_le (by positivity)
  have h4' : x + 1/2 < (⌊x + 1/2⌋₊ : ℕ) + 1 := Nat.lt_floor_add_one _
  have hmk : ⌊2 * x⌋₊ < 2 * ⌊x + 1/2⌋₊ + 1 := by
    have hc : ((⌊2 * x⌋₊ : ℕ) : ℝ) < ((2 * ⌊x + 1/2⌋₊ + 1 : ℕ) : ℝ) := by
      push_cast
      linarith
    exact_mod_cast hc
  have hkm : 2 * ⌊x + 1/2⌋₊ < ⌊2 * x⌋₊ + 2 := by
    have hc : ((2 * ⌊x + 1/2⌋₊ : ℕ) : ℝ) < ((⌊2 * x⌋₊ + 2 : ℕ) : ℝ) := by
      push_cast
      linarith
    exact_mod_cast hc
  omega

/-- C8: the decoder computes each field's summary statistics over the
positive-valued subset only — rounded population mean, rounded (divide-by-n)
population standard deviation, min/max/range — and when the filtered subset
is empty the stats are all zero and `longPauses = 0`. -/
theorem claim_C8_decoder_stats :
    (∀ (str : String) (p : FieldPattern), TypingParser.parsePattern str = some p →
      p.seekTime = TypingParser.calcStats p.raw.seekTimes
      ∧ p.pressTime = TypingParser.calcStats p.raw.pressTimes
      ∧ p.longPauses = (p.raw.seekTimes.filter fun t => decide (500 < t)).length
      ∧ p.raw.seekTimes
          = (p.keystrokes.map Keystroke.seekTime).filter (fun t => decide (0 < t))
      ∧ p.raw.pressTimes
          = (p.keystrokes.map Keystroke.pressTime).filter (fun t => decide (0 < t))
      ∧ (p.raw.seekTimes = [] → p.seekTime = ⟨0, 0, 0, 0, 0⟩ ∧ p.longPauses = 0)
      ∧ (p.raw.pressTimes = [] → p.pressTime = ⟨0, 0, 0, 0, 0⟩))
    ∧ (∀ arr : List ℤ, arr ≠ [] →
      (TypingParser.calcStats arr).avg = jsRound (zMean arr)
      ∧ (TypingParser.calcStats arr).std = (jsRoundSqrt (zVariance arr) : ℤ)
      ∧ (TypingParser.calcStats arr).min = listMin arr
      ∧ (TypingParser.calcStats arr).max = listMax arr
      ∧ (TypingParser.calcStats arr).range = listMax arr - listMin arr)
    ∧ (∀ q : ℚ, 0 ≤ q → jsRoundSqrt q = ⌊Real.sqrt ((q : ℚ) : ℝ) + 1/2⌋₊) := by
  refine ⟨?_, ?_, jsRoundSqrt_eq⟩
  · intro str p hp
    unfold TypingParser.parsePattern at hp
    split_ifs at hp with h1
    dsimp only at hp
    split_ifs at hp with h2
    obtain rfl : p = _ := (Option.some.inj hp).symm
    refine ⟨rfl, rfl, rfl, rfl, rfl, ?_, ?_⟩
    · intro he
      simp only at he
      constructor
      · show TypingParser.calcStats _ = (⟨0, 0, 0, 0, 0⟩ : StatsSummary)
        rw [he]
        rfl
      · show (List.filter _ _).length = 0
        rw [he]
        rfl
    · intro he
      simp only at he
      show TypingParser.calcStats _ = (⟨0, 0, 0, 0, 0⟩ : StatsSummary)
      rw [he]
      rfl
  · intro arr harr
    match arr, harr with
    | x :: xs, _ =>
      refine ⟨rfl, ?_, rfl, rfl, rfl⟩
      match xs with
      | [] =>
        show (0 : ℤ) = (jsRoundSqrt (zVariance [x]) : ℤ)
        have hv : zVariance [x] = 0 := by
          simp [zVariance, zMean]
        rw [hv]
        have h0 : jsRoundSqrt 0 = 0 := by
          rw [jsRoundSqrt_eq 0 le_rfl]
          norm_num
        rw [h0]
        rfl
      | y :: ys =>
        have hlen : 1 < (x :: y :: ys).length := by
          simp
        simp only [TypingParser.calcStats]
        rw [if_pos hlen]

/-- Witness for C8: the pattern `"0|0,0"` decodes to one keystroke whose
intervals are filtered out, giving all-zero stats and no long pauses; the
stats formulas and the rounded-square-root characterization at concrete
inputs. -/
theorem claim_C8_decoder_stats_witness :
    (TypingParser.parsePattern "0|0,0"
      = some ⟨1, ⟨0, 0, 0, 0, 0⟩, ⟨0, 0, 0, 0, 0⟩, 0, [⟨0, 0⟩], ⟨[], []⟩⟩)
    ∧ ((⟨1, ⟨0, 0, 0, 0, 0⟩, ⟨0, 0, 0, 0, 0⟩, 0, [⟨0, 0⟩], ⟨[], []⟩⟩ :
        FieldPattern).seekTime = ⟨0, 0, 0, 0, 0⟩
      ∧ (⟨1, ⟨0, 0, 0, 0, 0⟩, ⟨0, 0, 0, 0, 0⟩, 0, [⟨0, 0⟩], ⟨[], []⟩⟩ :
        FieldPattern).longPauses = 0)
    ∧ ([3] ≠ ([] : List ℤ)
      ∧ (TypingParser.calcStats [3]).avg = jsRound (zMean [3]))
    ∧ ((0:ℚ) ≤ 2 ∧ jsRoundSqrt 2 = ⌊Real.sqrt (((2:ℚ) : ℚ) : ℝ) + 1/2⌋₊) := by
  have hp : TypingParser.parsePattern "0|0,0"
      = some ⟨1, ⟨0, 0, 0, 0, 0⟩, ⟨0, 0, 0, 0, 0⟩, 0, [⟨0, 0⟩], ⟨[], []⟩⟩ := by
    decide
  refine ⟨hp, (claim_C8_decoder_stats.1 "0|0,0" _ hp).2.2.2.2.2.1 rfl,
    ⟨by decide, (claim_C8_decoder_stats.2.1 [3] (by decide)).1⟩,
    ⟨by norm_num, claim_C8_decoder_stats.2.2 2 (by norm_num)⟩⟩

/-- A field whose positive seek intervals do not number more than 4
contributes exactly its field-typing flags: no distribution entry, no
Gaussian-pattern flags, no `SeekTime` reasons. -/
theorem fieldStep_of_not_gt_four (l : String) (p : FieldPattern)
    (h : ¬(4 < p.raw.seekTimes.length)) :
    AutomationDetector.fieldStep l (some p)
      = ⟨weightSum (AutomationDetector.analyzeFieldTyping (some p)).botFlags,
          weightSum (AutomationDetector.analyzeFieldTyping (some p)).humanFlags,
          (AutomationDetector.analyzeFieldTyping (some p)).botFlags.map
            (fun f => "[" ++ l ++ "] " ++ f.reason),
          some (AutomationDetector.analyzeFieldTyping (some p)), none⟩ := by
  unfold AutomationDetector.fieldStep
  dsimp only
  rw [if_neg h]

/-- C10: the distribution-pattern detectors run only on a field with
strictly more than 4 positive seek intervals; with exactly 4 such intervals
— a length the distribution analyzer itself accepts as valid — no
seek-distribution entry appears in the details and the field contributes
only its field-typing flags. -/
theorem claim_C10_distribution_guard :
    (∀ s : Stats,
      ((AutomationDetector.userPatternOf s).map (fun p => p.raw.seekTimes.length))
        = some 4 →
      ((AutomationDetector.analyze s true).details.map Details.userSeekDistribution)
        = some none)
    ∧ (∀ s : Stats,
      ((AutomationDetector.passPatternOf s).map (fun p => p.raw.seekTimes.length))
        = some 4 →
      ((AutomationDetector.analyze s true).details.map Details.passSeekDistribution)
        = some none)
    ∧ (∀ (l : String) (p : FieldPattern), p.raw.seekTimes.length = 4 →
      (AutomationDetector.fieldStep l (some p)).dist = none
      ∧ (AutomationDetector.fieldStep l (some p)).reasons
        = (AutomationDetector.analyzeFieldTyping (some p)).botFlags.map
            (fun f => "[" ++ l ++ "] " ++ f.reason)
      ∧ (AutomationDetector.fieldStep l (some p)).bot
        = weightSum (AutomationDetector.analyzeFieldTyping (some p)).botFlags)
    ∧ (∀ values : List ℚ, values.length = 4 →
      TypingParser.analyzeDistribution values ≠ .invalid) := by
  refine ⟨?_, ?_, ?_, ?_⟩
  · intro s h
    cases hu : AutomationDetector.userPatternOf s with
    | none => rw [hu] at h; simp at h
    | some p =>
      rw [hu] at h
      simp only [Option.map_some'] at h
      have h4 := Option.some.inj h
      have hd : (AutomationDetector.analyze s true).details
          = some (AutomationDetector.detailsOf s) := rfl
      rw [hd, Option.map_some']
      have hds : (AutomationDetector.detailsOf s).userSeekDistribution
          = (AutomationDetector.fieldStep "Username"
              (AutomationDetector.userPatternOf s)).dist := rfl
      rw [hds, hu, fieldStep_of_not_gt_four _ _ (by omega)]
  · intro s h
    cases hu : AutomationDetector.passPatternOf s with
    | none => rw [hu] at h; simp at h
    | some p =>
      rw [hu] at h
      simp only [Option.map_some'] at h
      have h4 := Option.some.inj h
      have hd : (AutomationDetector.analyze s true).details
          = some (AutomationDetector.detailsOf s) := rfl
      rw [hd, Option.map_some']
      have hds : (AutomationDetector.detailsOf s).passSeekDistribution
          = (AutomationDetector.fieldStep "Password"
              (AutomationDetector.passPatternOf s)).dist := rfl
      rw [hds, hu, fieldStep_of_not_gt_four _ _ (by omega)]
  · intro l p h4
    rw [fieldStep_of_not_gt_four _ _ (by omega)]
    exact ⟨rfl, rfl, rfl⟩
  · intro values hlen
    unfold TypingParser.analyzeDistribution
    rw [if_neg (by omega)]
    dsimp only
    split
    · exact fun hcontra => DistResult.noConfusion hcontra
    · exact fun hcontra => DistResult.noConfusion hcontra

/-- Witness for C10: a username pattern with exactly 4 positive seek
intervals yields no seek-distribution entry; a 4-element array is valid for
the distribution analyzer. -/
theorem claim_C10_distribution_guard_witness :
    (((AutomationDetector.userPatternOf
        { typingdna := some { lastUserTp := some "0|100,60|200,60|300,60|400,60" } }).map
          (fun p => p.raw.seekTimes.length)) = some 4
      ∧ ((AutomationDetector.analyze
          { typingdna := some { lastUserTp := some "0|100,60|200,60|300,60|400,60" } }
          true).details.map Details.userSeekDistribution) = some none)
    ∧ ([(1:ℚ), 2, 3, 4].length = 4
      ∧ TypingParser.analyzeDistribution [1, 2, 3, 4] ≠ .invalid) := by
  have h : ((AutomationDetector.userPatternOf
      { typingdna := some { lastUserTp := some "0|100,60|200,60|300,60|400,60" } }).map
        (fun p => p.raw.seekTimes.length)) = some 4 := by decide
  exact ⟨⟨h, claim_C10_distribution_guard.1 _ h⟩,
    ⟨by norm_num, claim_C10_distribution_guard.2.2.2 _ (by norm_num)⟩⟩

/-- Concrete decoding: `"0|600,50"` has one keystroke with a 600ms seek
(a long pause) and a 50ms press. -/
theorem parsePattern_600_50 :
    TypingParser.parsePattern "0|600,50"
      = some ⟨1, ⟨600, 600, 600, 0, 0⟩, ⟨50, 50, 50, 0, 0⟩, 1, [⟨600, 50⟩],
          ⟨[600], [50]⟩⟩ := by
  have hcs600 : TypingParser.calcStats [600] = ⟨600, 600, 600, 0, 0⟩ := by
    simp only [TypingParser.calcStats, listMin, listMax, List.foldl,
      StatsSummary.mk.injEq]
    norm_num [zMean, jsRound]
  have hcs50 : TypingParser.calcStats [50] = ⟨50, 50, 50, 0, 0⟩ := by
    simp only [TypingParser.calcStats, listMin, listMax, List.foldl,
      StatsSummary.mk.injEq]
    norm_num [zMean, jsRound]
  have hsplit : splitOnChar '|' ("0|600,50").data
      = [['0'], ['6', '0', '0', ',', '5', '0']] := by decide
  unfold TypingParser.parsePattern
  rw [if_neg (by decide)]
  dsimp only
  rw [hsplit]
  rw [if_neg (by decide)]
  have hks : (List.drop 1 [['0'], ['6', '0', '0', ',', '5', '0']]).map (fun seg =>
      (⟨jsParseIntAt (splitOnChar ',' seg) 0,
        jsParseIntAt (splitOnChar ',' seg) 1⟩ : Keystroke)) = [⟨600, 50⟩] := by decide
  rw [hks]
  rw [show (([(⟨600, 50⟩ : Keystroke)].map Keystroke.seekTime).filter
      fun t => decide (0 < t)) = [600] from by decide]
  rw [show (([(⟨600, 50⟩ : Keystroke)].map Keystroke.pressTime).filter
      fun t => decide (0 < t)) = [50] from by decide]
  rw [hcs600, hcs50]
  rfl

/-- C3 counterexample: on a request whose username typing triggers three
human-tagged flags (normal seek, normal press, long pauses), the returned
reasons list is empty — human-tagged flags never contribute their reason
strings, contradicting the claim that every triggered flag does. -/
theorem claim_C3_counterexample :
    (AutomationDetector.analyze
      { typingdna := some { lastUserTp := some "0|600,50" } } true).reasons = []
    ∧ "Has long pauses (1x > 500ms)" ∈
        ((AutomationDetector.analyzeFieldTyping
          (AutomationDetector.userPatternOf
            { typingdna := some { lastUserTp := some "0|600,50" } })).humanFlags.map
          SignalFlag.reason) := by
  have hup : AutomationDetector.userPatternOf
      { typingdna := some { lastUserTp := some "0|600,50" } }
      = some ⟨1, ⟨600, 600, 600, 0, 0⟩, ⟨50, 50, 50, 0, 0⟩, 1, [⟨600, 50⟩],
          ⟨[600], [50]⟩⟩ := by
    rw [show AutomationDetector.userPatternOf
        { typingdna := some { lastUserTp := some "0|600,50" } }
        = TypingParser.parsePattern "0|600,50" from rfl, parsePattern_600_50]
  have ha : AutomationDetector.analyzeFieldTyping
      (some ⟨1, ⟨600, 600, 600, 0, 0⟩, ⟨50, 50, 50, 0, 0⟩, 1, [⟨600, 50⟩],
        ⟨[600], [50]⟩⟩)
      = ⟨true, [], [⟨1, "Normal key interval (600ms)"⟩, ⟨1, "Normal key press (50ms)"⟩,
          ⟨2, "Has long pauses (1x > 500ms)"⟩]⟩ := by decide
  constructor
  · have hr : (AutomationDetector.analyze
        { typingdna := some { lastUserTp := some "0|600,50" } } true).reasons
        = AutomationDetector.reasonsOf
            { typingdna := some { lastUserTp := some "0|600,50" } } := rfl
    rw [hr]
    unfold AutomationDetector.reasonsOf
    rw [hup, fieldStep_of_not_gt_four _ _ (by decide), ha]
    decide
  · rw [hup, ha]
    decide

/-- The per-field reasons accumulated by `analyze` coincide with the
specification-side bot-reason list of the field. -/
theorem fieldStep_reasons_spec (l : String) (pat : Option FieldPattern) :
    (AutomationDetector.fieldStep l pat).reasons
      = AutomationDetector.fieldBotReasonsSpec l pat := by
  cases pat with
  | none => rfl
  | some p =>
    unfold AutomationDetector.fieldStep AutomationDetector.fieldBotReasonsSpec
    dsimp only
    split_ifs with h
    · rfl
    · exact (List.append_nil _).symm

/-- The trajectory reasons accumulated by `analyze` coincide with the
specification-side trajectory reason list. -/
theorem trajectoryStep_reasons_spec (s : Stats) :
    (AutomationDetector.trajectoryStep s).reasons
      = (match s.trajectory with
        | none => []
        | some traj =>
          let ta := TypingParser.analyzeTrajectory traj
          if ta.valid then
            (if ta.points < AutomationDetector.thresholds.trajectory.minPoints then
              ["Too few trajectory points (" ++ toString ta.points ++ " < " ++
                toString AutomationDetector.thresholds.trajectory.minPoints ++ ")"]
            else [])
            ++ (if ta.distance < AutomationDetector.thresholds.trajectory.minDistance ∧
                  traj.captured then
              ["Mouse distance too short (" ++ toString ta.distance ++ "px < " ++
                toString AutomationDetector.thresholds.trajectory.minDistance ++ "px)"]
            else [])
            ++ ((AutomationDetector.detectTrajectoryAutomation ta).map
                fun f => "[Trajectory] " ++ f.reason)
          else []) := by
  cases htr : s.trajectory with
  | none => simp only [AutomationDetector.trajectoryStep, htr]
  | some traj =>
    simp only [AutomationDetector.trajectoryStep, htr]
    split_ifs <;> rfl

/-- C3 (amended): exactly the triggered bot-tagged flags contribute their
reasons, in detector invocation order, with the group prefixes
(`[Username] `, `[Password] `, `[Username SeekTime] `, `[Password SeekTime] `,
`[Trajectory] `, `[Automation] `, `[Events] `); the timing, paste and
password-mismatch reasons carry no prefix, and human-tagged flags contribute
to the human score only, never to the reasons list. -/
theorem claim_C3_amended_reasons (s : Stats) :
    (AutomationDetector.analyze s true).reasons = AutomationDetector.reasonsSpec s := by
  have h0 : (AutomationDetector.analyze s true).reasons
      = AutomationDetector.reasonsOf s := rfl
  rw [h0]
  unfold AutomationDetector.reasonsOf AutomationDetector.reasonsSpec
  rw [fieldStep_reasons_spec, fieldStep_reasons_spec, trajectoryStep_reasons_spec]

/-- C4: on a request whose only input is a 2-point trajectory, the
trajectory analysis is marked invalid — but, because all trajectory checks
sit inside `if (trajAnalysis.valid)`, no flag fires at all: the "too few
points" branch (which the specification expects to fire with weight 1) is
unreachable, and the result has botScore = 0, humanScore = 0 and no
reasons. -/
theorem claim_C4_two_point_trajectory :
    (AutomationDetector.analyze
      { trajectory := some ⟨[⟨0, 0, none⟩, ⟨10, 10, none⟩], true⟩ } true).scores
      = some ⟨0, 0⟩
    ∧ (AutomationDetector.analyze
      { trajectory := some ⟨[⟨0, 0, none⟩, ⟨10, 10, none⟩], true⟩ } true).reasons = []
    ∧ ((AutomationDetector.analyze
      { trajectory := some ⟨[⟨0, 0, none⟩, ⟨10, 10, none⟩], true⟩ } true).details.map
        Details.trajectoryAnalysis) = some (some ⟨false, 0, 0, 0, 0, none⟩) := by
  refine ⟨by decide, by decide, by decide⟩

/-- A sum of two squares of rationals is positive unless both vanish. -/
theorem sq_add_sq_pos {a b : ℚ} (h : ¬(a = 0 ∧ b = 0)) : 0 < a ^ 2 + b ^ 2 := by
  rcases not_and_or.mp h with h' | h'
  · have ha : 0 < a ^ 2 := by positivity
    nlinarith [sq_nonneg b]
  · have hb : 0 < b ^ 2 := by positivity
    nlinarith [sq_nonneg a]

/-- When the incoming displacement vanishes, the clamped cosine is 0 and the
turn angle is `π/2`. -/
theorem turnAngle_of_magSq_left_eq_zero (a b c : Point) (h : magSq a b = 0) :
    turnAngle a b c = Real.pi / 2 := by
  unfold turnAngle
  dsimp only
  have h' : ((b.x - a.x) ^ 2 + (b.y - a.y) ^ 2 : ℚ) = 0 := h
  rw [h']
  norm_num [Real.arccos_zero]

/-- When the outgoing displacement vanishes, the clamped cosine is 0 and the
turn angle is `π/2`. -/
theorem turnAngle_of_magSq_right_eq_zero (a b c : Point) (h : magSq b c = 0) :
    turnAngle a b c = Real.pi / 2 := by
  unfold turnAngle
  dsimp only
  have h' : ((c.x - b.x) ^ 2 + (c.y - b.y) ^ 2 : ℚ) = 0 := h
  rw [h']
  norm_num [Real.arccos_zero]

/-- Three collinear points stepping in one direction have turn angle 0. -/
theorem turnAngle_collinear (px py ux uy s : ℚ) (t1 t2 t3 : Option ℚ)
    (hu : ¬(ux = 0 ∧ uy = 0)) (hs : 0 < s) :
    turnAngle ⟨px, py, t1⟩ ⟨px + ux, py + uy, t2⟩
      ⟨px + ux + s * ux, py + uy + s * uy, t3⟩ = 0 := by
  have hm2 : (0:ℚ) < ux ^ 2 + uy ^ 2 := sq_add_sq_pos hu
  have hm2R : (0:ℝ) < ((ux ^ 2 + uy ^ 2 : ℚ) : ℝ) := by exact_mod_cast hm2
  have hsR : (0:ℝ) < ((s : ℚ) : ℝ) := by exact_mod_cast hs
  unfold turnAngle
  dsimp only
  rw [show px + ux - px = ux from by ring, show py + uy - py = uy from by ring,
    show px + ux + s * ux - (px + ux) = s * ux from by ring,
    show py + uy + s * uy - (py + uy) = s * uy from by ring]
  rw [show ((s * ux) ^ 2 + (s * uy) ^ 2 : ℚ) = s ^ 2 * (ux ^ 2 + uy ^ 2) from by ring]
  rw [show (ux * (s * ux) + uy * (s * uy) : ℚ) = s * (ux ^ 2 + uy ^ 2) from by ring]
  rw [Rat.cast_mul, Rat.cast_mul, Rat.cast_pow]
  rw [Real.sqrt_mul (by positivity) _, Real.sqrt_sq hsR.le]
  have hden : Real.sqrt ((ux ^ 2 + uy ^ 2 : ℚ) : ℝ) *
      (((s : ℚ) : ℝ) * Real.sqrt ((ux ^ 2 + uy ^ 2 : ℚ) : ℝ))
      = ((s : ℚ) : ℝ) * ((ux ^ 2 + uy ^ 2 : ℚ) : ℝ) := by
    rw [show Real.sqrt ((ux ^ 2 + uy ^ 2 : ℚ) : ℝ) *
        (((s : ℚ) : ℝ) * Real.sqrt ((ux ^ 2 + uy ^ 2 : ℚ) : ℝ))
        = ((s : ℚ) : ℝ) * (Real.sqrt ((ux ^ 2 + uy ^ 2 : ℚ) : ℝ) *
            Real.sqrt ((ux ^ 2 + uy ^ 2 : ℚ) : ℝ)) from by ring,
      Real.mul_self_sqrt hm2R.le]
  rw [hden, div_self (by positivity)]
  rw [min_self, max_eq_right (by norm_num : (-1:ℝ) ≤ 1), Real.arccos_one]

/-- C7: (i) an interior point whose turn angle lies strictly inside the
deliberate overlap band (0.09, 0.1) increments both the smooth-segment and
the correction counter; (ii) three collinear points stepping in one
direction give `smoothRatio = 1.0` and `correctionRatio = 0.0`. -/
theorem claim_C7_angle_bands :
    (∀ a b c : Point, 0.09 < turnAngle a b c → turnAngle a b c < 0.1 →
      stepSmooth a b c = true ∧ stepCorrection a b c = true)
    ∧ (∀ (px py ux uy s : ℚ) (t1 t2 t3 : Option ℚ) (cap : Bool),
      ¬(ux = 0 ∧ uy = 0) → 0 < s →
      (TypingParser.analyzeTrajectory
        ⟨[⟨px, py, t1⟩, ⟨px + ux, py + uy, t2⟩,
          ⟨px + ux + s * ux, py + uy + s * uy, t3⟩], cap⟩).smoothRatio = 1
      ∧ (TypingParser.analyzeTrajectory
        ⟨[⟨px, py, t1⟩, ⟨px + ux, py + uy, t2⟩,
          ⟨px + ux + s * ux, py + uy + s * uy, t3⟩], cap⟩).correctionRatio = 0
      ∧ (TypingParser.analyzeTrajectory
        ⟨[⟨px, py, t1⟩, ⟨px + ux, py + uy, t2⟩,
          ⟨px + ux + s * ux, py + uy + s * uy, t3⟩], cap⟩).valid = true) := by
  have hpi : (0.1 : ℝ) < Real.pi / 2 := by
    have := Real.pi_gt_three
    linarith
  constructor
  · intro a b c h009 h01
    have hm1 : 0 < magSq a b := by
      rcases lt_or_eq_of_le (show (0:ℚ) ≤ magSq a b by unfold magSq; positivity) with h | h
      · exact h
      · rw [turnAngle_of_magSq_left_eq_zero a b c h.symm] at h01
        linarith
    have hm2 : 0 < magSq b c := by
      rcases lt_or_eq_of_le (show (0:ℚ) ≤ magSq b c by unfold magSq; positivity) with h | h
      · exact h
      · rw [turnAngle_of_magSq_right_eq_zero a b c h.symm] at h01
        linarith
    constructor
    · simp only [stepSmooth, decide_eq_true_eq]
      exact ⟨hm1, hm2, h01⟩
    · simp only [stepCorrection, decide_eq_true_eq]
      exact ⟨hm1, hm2, h009, lt_trans h01 (by norm_num)⟩
  · intro px py ux uy s t1 t2 t3 cap hu hs
    have hangle := turnAngle_collinear px py ux uy s t1 t2 t3 hu hs
    have hm1 : 0 < magSq ⟨px, py, t1⟩ ⟨px + ux, py + uy, t2⟩ := by
      unfold magSq
      dsimp only
      rw [show px + ux - px = ux from by ring, show py + uy - py = uy from by ring]
      exact sq_add_sq_pos hu
    have hm2 : 0 < magSq ⟨px + ux, py + uy, t2⟩ ⟨px + ux + s * ux, py + uy + s * uy, t3⟩ := by
      unfold magSq
      dsimp only
      rw [show px + ux + s * ux - (px + ux) = s * ux from by ring,
        show py + uy + s * uy - (py + uy) = s * uy from by ring]
      have : ¬(s * ux = 0 ∧ s * uy = 0) := by
        rintro ⟨h1, h2⟩
        rcases mul_eq_zero.mp h1 with h | h
        · exact absurd h hs.ne'
        · rcases mul_eq_zero.mp h2 with h' | h'
          · exact absurd h' hs.ne'
          · exact hu ⟨h, h'⟩
      exact sq_add_sq_pos this
    have hsm : stepSmooth ⟨px, py, t1⟩ ⟨px + ux, py + uy, t2⟩
        ⟨px + ux + s * ux, py + uy + s * uy, t3⟩ = true := by
      simp only [stepSmooth, decide_eq_true_eq]
      refine ⟨hm1, hm2, ?_⟩
      rw [hangle]
      norm_num
    have hco : stepCorrection ⟨px, py, t1⟩ ⟨px + ux, py + uy, t2⟩
        ⟨px + ux + s * ux, py + uy + s * uy, t3⟩ = false := by
      simp only [stepCorrection, decide_eq_false_iff_not]
      rintro ⟨-, -, h9, -⟩
      rw [hangle] at h9
      norm_num at h9
    unfold TypingParser.analyzeTrajectory
    rw [if_neg (by norm_num)]
    dsimp only
    simp only [triplesOf, List.tail_cons, List.zip_cons_cons, List.zip_nil_right,
      List.filter_cons, List.filter_nil, hsm, hco]
    norm_num [jsRound]

/-- Witness for C7: the interior point of `(0,0), (1,0), (221,21)` has
turn angle `arccos (220/221)`, which lies strictly between 0.09 and 0.1
rad, so both counters increment there; and the collinear configuration
`(0,0), (1,0), (3,0)` gives `smoothRatio = 1`, `correctionRatio = 0`. -/
theorem claim_C7_angle_bands_witness :
    (0.09 < turnAngle ⟨0, 0, none⟩ ⟨1, 0, none⟩ ⟨221, 21, none⟩
      ∧ turnAngle ⟨0, 0, none⟩ ⟨1, 0, none⟩ ⟨221, 21, none⟩ < 0.1
      ∧ stepSmooth ⟨0, 0, none⟩ ⟨1, 0, none⟩ ⟨221, 21, none⟩ = true
      ∧ stepCorrection ⟨0, 0, none⟩ ⟨1, 0, none⟩ ⟨221, 21, none⟩ = true)
    ∧ ((TypingParser.analyzeTrajectory
        ⟨[⟨0, 0, none⟩, ⟨0 + 1, 0 + 0, none⟩,
          ⟨0 + 1 + 2 * 1, 0 + 0 + 2 * 0, none⟩], false⟩).smoothRatio = 1
      ∧ (TypingParser.analyzeTrajectory
        ⟨[⟨0, 0, none⟩, ⟨0 + 1, 0 + 0, none⟩,
          ⟨0 + 1 + 2 * 1, 0 + 0 + 2 * 0, none⟩], false⟩).correctionRatio = 0) := by
  have hval : turnAngle ⟨0, 0, none⟩ ⟨1, 0, none⟩ ⟨221, 21, none⟩
      = Real.arccos (220/221) := by
    unfold turnAngle
    dsimp only
    rw [show ((1:ℚ) - 0) ^ 2 + ((0:ℚ) - 0) ^ 2 = 1 from by norm_num,
      show ((221:ℚ) - 1) ^ 2 + ((21:ℚ) - 0) ^ 2 = 48841 from by norm_num,
      show ((1:ℚ) - 0) * (221 - 1) + ((0:ℚ) - 0) * (21 - 0) = 220 from by norm_num]
    rw [show (((1:ℚ)) : ℝ) = 1 from by norm_num, Real.sqrt_one]
    rw [show (((48841:ℚ)) : ℝ) = (221:ℝ) ^ 2 from by norm_num]
    rw [Real.sqrt_sq (by norm_num : (0:ℝ) ≤ 221)]
    rw [show (((220:ℚ)) : ℝ) = (220:ℝ) from by norm_num]
    rw [one_mul]
    rw [min_eq_right (by norm_num : (220:ℝ)/221 ≤ 1),
      max_eq_right (by norm_num : (-1:ℝ) ≤ 220/221)]
  have hb1 := Real.cos_bound (show |(0.1:ℝ)| ≤ 1 by
    rw [abs_of_pos (by norm_num : (0:ℝ) < 0.1)]
    norm_num)
  have hb2 := Real.cos_bound (show |(0.09:ℝ)| ≤ 1 by
    rw [abs_of_pos (by norm_num : (0:ℝ) < 0.09)]
    norm_num)
  have h1 : Real.cos 0.1 < 220/221 := by
    have h2 := (abs_le.mp hb1).2
    have h3 : |(0.1:ℝ)| ^ 4 * (5 / 96) = (0.1:ℝ) ^ 4 * (5/96) := by
      rw [abs_of_pos (by norm_num : (0:ℝ) < 0.1)]
    rw [h3] at h2
    nlinarith [h2]
  have h9 : (220:ℝ)/221 < Real.cos 0.09 := by
    have h2 := (abs_le.mp hb2).1
    have h3 : |(0.09:ℝ)| ^ 4 * (5 / 96) = (0.09:ℝ) ^ 4 * (5/96) := by
      rw [abs_of_pos (by norm_num : (0:ℝ) < 0.09)]
    rw [h3] at h2
    nlinarith [h2]
  have harc1 : Real.arccos (220/221) < 0.1 := by
    by_contra hcon
    push_neg at hcon
    have hmono := Real.cos_le_cos_of_nonneg_of_le_pi
      (by norm_num : (0:ℝ) ≤ 0.1) (Real.arccos_le_pi _) hcon
    rw [Real.cos_arccos (by norm_num) (by norm_num)] at hmono
    linarith
  have harc9 : (0.09:ℝ) < Real.arccos (220/221) := by
    by_contra hcon
    push_neg at hcon
    have hpi9 : (0.09:ℝ) ≤ Real.pi := by
      have := Real.pi_gt_three
      linarith
    have hmono := Real.cos_le_cos_of_nonneg_of_le_pi
      (Real.arccos_nonneg _) hpi9 hcon
    rw [Real.cos_arccos (by norm_num) (by norm_num)] at hmono
    linarith
  have hlt9 : (0.09:ℝ) < turnAngle ⟨0, 0, none⟩ ⟨1, 0, none⟩ ⟨221, 21, none⟩ := by
    rw [hval]; exact harc9
  have hlt1 : turnAngle ⟨0, 0, none⟩ ⟨1, 0, none⟩ ⟨221, 21, none⟩ < 0.1 := by
    rw [hval]; exact harc1
  have happ := claim_C7_angle_bands.1 ⟨0, 0, none⟩ ⟨1, 0, none⟩ ⟨221, 21, none⟩ hlt9 hlt1
  have hcol := claim_C7_angle_bands.2 0 0 1 0 2 none none none false
    (by rintro ⟨h, -⟩; exact one_ne_zero h) (by norm_num)
  exact ⟨⟨hlt9, hlt1, happ.1, happ.2⟩, hcol.1, hcol.2.1⟩
